import Mathlib

/- A verification of the ARIA block cipher implementation (RFC 5794) in aria.c:
   the 128-bit block type and its operations, the substitution and diffusion
   layers, the key schedule, the crypt engine, and the encrypt/decrypt entry
   points, together with proofs of the documented algebraic properties. -/

set_option maxRecDepth 40000
set_option maxHeartbeats 1000000

namespace ARIA

/- Auxiliary facts about byte assembly and extraction on Nat, used to reason
   about the packed two-word representation of 128-bit values. -/

theorem shl_or_eq_add {b : Nat} (a k : Nat) (hb : b < 2 ^ k) : a <<< k ||| b = a <<< k + b := by
  rw [Nat.shiftLeft_eq, Nat.mul_comm a]
  exact (Nat.mul_add_lt_is_or hb a).symm

theorem and255 (x : Nat) : x &&& 255 = x % 256 := Nat.and_pow_two_sub_one_eq_mod x 8

/-- Packing of eight bytes into a 64-bit word, most significant byte first,
as done by the or-of-shifted-bytes pattern in aria.c. -/
def assemble8 (a0 a1 a2 a3 a4 a5 a6 a7 : Nat) : Nat :=
  a0 <<< 56 ||| a1 <<< 48 ||| a2 <<< 40 ||| a3 <<< 32 ||| a4 <<< 24 ||| a5 <<< 16 ||| a6 <<< 8 ||| a7

theorem assemble8_eq_sum {a0 a1 a2 a3 a4 a5 a6 a7 : Nat}
    (h0 : a0 < 256) (h1 : a1 < 256) (h2 : a2 < 256) (h3 : a3 < 256)
    (h4 : a4 < 256) (h5 : a5 < 256) (h6 : a6 < 256) (h7 : a7 < 256) :
    assemble8 a0 a1 a2 a3 a4 a5 a6 a7 =
      a0 * 72057594037927936 + a1 * 281474976710656 + a2 * 1099511627776 + a3 * 4294967296
      + a4 * 16777216 + a5 * 65536 + a6 * 256 + a7 := by
  unfold assemble8
  simp only [Nat.or_assoc]
  rw [shl_or_eq_add a6 8 h7]
  rw [shl_or_eq_add a5 16 (by simp only [Nat.shiftLeft_eq]; norm_num; omega)]
  rw [shl_or_eq_add a4 24 (by simp only [Nat.shiftLeft_eq]; norm_num; omega)]
  rw [shl_or_eq_add a3 32 (by simp only [Nat.shiftLeft_eq]; norm_num; omega)]
  rw [shl_or_eq_add a2 40 (by simp only [Nat.shiftLeft_eq]; norm_num; omega)]
  rw [shl_or_eq_add a1 48 (by simp only [Nat.shiftLeft_eq]; norm_num; omega)]
  rw [shl_or_eq_add a0 56 (by simp only [Nat.shiftLeft_eq]; norm_num; omega)]
  simp only [Nat.shiftLeft_eq]
  norm_num
  omega

theorem ex0 {a0 a1 a2 a3 a4 a5 a6 a7 : Nat}
    (h0 : a0 < 256) (h1 : a1 < 256) (h2 : a2 < 256) (h3 : a3 < 256)
    (h4 : a4 < 256) (h5 : a5 < 256) (h6 : a6 < 256) (h7 : a7 < 256) :
    assemble8 a0 a1 a2 a3 a4 a5 a6 a7 >>> 56 = a0 := by
  rw [assemble8_eq_sum h0 h1 h2 h3 h4 h5 h6 h7, Nat.shiftRight_eq_div_pow]
  norm_num
  omega

theorem ex1 {a0 a1 a2 a3 a4 a5 a6 a7 : Nat}
    (h0 : a0 < 256) (h1 : a1 < 256) (h2 : a2 < 256) (h3 : a3 < 256)
    (h4 : a4 < 256) (h5 : a5 < 256) (h6 : a6 < 256) (h7 : a7 < 256) :
    assemble8 a0 a1 a2 a3 a4 a5 a6 a7 >>> 48 &&& 255 = a1 := by
  rw [assemble8_eq_sum h0 h1 h2 h3 h4 h5 h6 h7, Nat.shiftRight_eq_div_pow, and255]
  norm_num
  omega

theorem ex2 {a0 a1 a2 a3 a4 a5 a6 a7 : Nat}
    (h0 : a0 < 256) (h1 : a1 < 256) (h2 : a2 < 256) (h3 : a3 < 256)
    (h4 : a4 < 256) (h5 : a5 < 256) (h6 : a6 < 256) (h7 : a7 < 256) :
    assemble8 a0 a1 a2 a3 a4 a5 a6 a7 >>> 40 &&& 255 = a2 := by
  rw [assemble8_eq_sum h0 h1 h2 h3 h4 h5 h6 h7, Nat.shiftRight_eq_div_pow, and255]
  norm_num
  omega

theorem ex3 {a0 a1 a2 a3 a4 a5 a6 a7 : Nat}
    (h0 : a0 < 256) (h1 : a1 < 256) (h2 : a2 < 256) (h3 : a3 < 256)
    (h4 : a4 < 256) (h5 : a5 < 256) (h6 : a6 < 256) (h7 : a7 < 256) :
    assemble8 a0 a1 a2 a3 a4 a5 a6 a7 >>> 32 &&& 255 = a3 := by
  rw [assemble8_eq_sum h0 h1 h2 h3 h4 h5 h6 h7, Nat.shiftRight_eq_div_pow, and255]
  norm_num
  omega

theorem ex4 {a0 a1 a2 a3 a4 a5 a6 a7 : Nat}
    (h0 : a0 < 256) (h1 : a1 < 256) (h2 : a2 < 256) (h3 : a3 < 256)
    (h4 : a4 < 256) (h5 : a5 < 256) (h6 : a6 < 256) (h7 : a7 < 256) :
    assemble8 a0 a1 a2 a3 a4 a5 a6 a7 >>> 24 &&& 255 = a4 := by
  rw [assemble8_eq_sum h0 h1 h2 h3 h4 h5 h6 h7, Nat.shiftRight_eq_div_pow, and255]
  norm_num
  omega

theorem ex5 {a0 a1 a2 a3 a4 a5 a6 a7 : Nat}
    (h0 : a0 < 256) (h1 : a1 < 256) (h2 : a2 < 256) (h3 : a3 < 256)
    (h4 : a4 < 256) (h5 : a5 < 256) (h6 : a6 < 256) (h7 : a7 < 256) :
    assemble8 a0 a1 a2 a3 a4 a5 a6 a7 >>> 16 &&& 255 = a5 := by
  rw [assemble8_eq_sum h0 h1 h2 h3 h4 h5 h6 h7, Nat.shiftRight_eq_div_pow, and255]
  norm_num
  omega

theorem ex6 {a0 a1 a2 a3 a4 a5 a6 a7 : Nat}
    (h0 : a0 < 256) (h1 : a1 < 256) (h2 : a2 < 256) (h3 : a3 < 256)
    (h4 : a4 < 256) (h5 : a5 < 256) (h6 : a6 < 256) (h7 : a7 < 256) :
    assemble8 a0 a1 a2 a3 a4 a5 a6 a7 >>> 8 &&& 255 = a6 := by
  rw [assemble8_eq_sum h0 h1 h2 h3 h4 h5 h6 h7, Nat.shiftRight_eq_div_pow, and255]
  norm_num
  omega

theorem ex7 {a0 a1 a2 a3 a4 a5 a6 a7 : Nat}
    (h0 : a0 < 256) (h1 : a1 < 256) (h2 : a2 < 256) (h3 : a3 < 256)
    (h4 : a4 < 256) (h5 : a5 < 256) (h6 : a6 < 256) (h7 : a7 < 256) :
    assemble8 a0 a1 a2 a3 a4 a5 a6 a7 &&& 255 = a7 := by
  rw [assemble8_eq_sum h0 h1 h2 h3 h4 h5 h6 h7, and255]
  omega

theorem reassemble {l : Nat} (h : l < 2 ^ 64) :
    assemble8 (l >>> 56) (l >>> 48 &&& 255) (l >>> 40 &&& 255) (l >>> 32 &&& 255)
      (l >>> 24 &&& 255) (l >>> 16 &&& 255) (l >>> 8 &&& 255) (l &&& 255) = l := by
  rw [assemble8_eq_sum (by rw [Nat.shiftRight_eq_div_pow]; norm_num; omega)
    (by rw [and255]; omega) (by rw [and255]; omega) (by rw [and255]; omega)
    (by rw [and255]; omega) (by rw [and255]; omega) (by rw [and255]; omega)
    (by rw [and255]; omega)]
  simp only [Nat.shiftRight_eq_div_pow, and255]
  norm_num at h ⊢
  omega

theorem assemble8_lt {a0 a1 a2 a3 a4 a5 a6 a7 : Nat}
    (h0 : a0 < 256) (h1 : a1 < 256) (h2 : a2 < 256) (h3 : a3 < 256)
    (h4 : a4 < 256) (h5 : a5 < 256) (h6 : a6 < 256) (h7 : a7 < 256) :
    assemble8 a0 a1 a2 a3 a4 a5 a6 a7 < 2 ^ 64 := by
  rw [assemble8_eq_sum h0 h1 h2 h3 h4 h5 h6 h7]
  norm_num
  omega

theorem xor_lt_256 {a b : Nat} (ha : a < 256) (hb : b < 256) : a ^^^ b < 256 :=
  @Nat.xor_lt_two_pow a b 8 ha hb

theorem hi_byte_lt {l : Nat} (h : l < 2 ^ 64) : l >>> 56 < 256 := by
  rw [Nat.shiftRight_eq_div_pow]
  norm_num at h ⊢
  omega

theorem mid_byte_lt (l k : Nat) : l >>> k &&& 255 < 256 := by
  rw [and255]
  omega

theorem lo_byte_lt (l : Nat) : l &&& 255 < 256 := by
  rw [and255]
  omega

theorem shr64_lt {l : Nat} (k : Nat) (h : l < 2 ^ 64) : l >>> k < 2 ^ 64 :=
  Nat.lt_of_le_of_lt (by rw [Nat.shiftRight_eq_div_pow]; exact Nat.div_le_self _ _) h

theorem nat_xor_left_comm (a b c : Nat) : a ^^^ (b ^^^ c) = b ^^^ (a ^^^ c) := by
  rw [← Nat.xor_assoc, Nat.xor_comm a b, Nat.xor_assoc]

theorem nat_xor_cancel_left (a b : Nat) : a ^^^ (a ^^^ b) = b := by
  rw [← Nat.xor_assoc, Nat.xor_self, Nat.zero_xor]

theorem xor_shiftRight (a b k : Nat) : (a ^^^ b) >>> k = a >>> k ^^^ b >>> k := by
  apply Nat.eq_of_testBit_eq
  intro i
  simp

/- The 128-bit value type of aria.c: a struct of two 64-bit words.  The
   uint64_t range constraint of each C field is carried as a proof field. -/

structure aria_u128_t where
  left : Nat
  right : Nat
  left_lt : left < 2 ^ 64
  right_lt : right < 2 ^ 64

theorem u128_ext {x y : aria_u128_t} (h1 : x.left = y.left) (h2 : x.right = y.right) : x = y := by
  cases x; cases y; simp_all

/-- The all-zero 128-bit value, used to model the uninitialized scratch slot 0
of the round-key arrays and as the list-access default. -/
def zero128 : aria_u128_t := ⟨0, 0, by norm_num, by norm_num⟩

/-- rol from aria.c: 128-bit left circular rotation by cnt, 0 < cnt < 64. -/
def rol (x : aria_u128_t) (cnt : Nat) : aria_u128_t :=
  ⟨(x.left <<< cnt) % 2 ^ 64 ||| x.right >>> (64 - cnt),
   (x.right <<< cnt) % 2 ^ 64 ||| x.left >>> (64 - cnt),
   Nat.or_lt_two_pow (Nat.mod_lt _ (Nat.two_pow_pos 64)) (shr64_lt _ x.right_lt),
   Nat.or_lt_two_pow (Nat.mod_lt _ (Nat.two_pow_pos 64)) (shr64_lt _ x.left_lt)⟩

/-- ror from aria.c: 128-bit right circular rotation by cnt, 0 < cnt < 64. -/
def ror (x : aria_u128_t) (cnt : Nat) : aria_u128_t :=
  ⟨x.left >>> cnt ||| (x.right <<< (64 - cnt)) % 2 ^ 64,
   x.right >>> cnt ||| (x.left <<< (64 - cnt)) % 2 ^ 64,
   Nat.or_lt_two_pow (shr64_lt _ x.left_lt) (Nat.mod_lt _ (Nat.two_pow_pos 64)),
   Nat.or_lt_two_pow (shr64_lt _ x.right_lt) (Nat.mod_lt _ (Nat.two_pow_pos 64))⟩

/-- xor from aria.c: halfword-wise bitwise exclusive or. -/
def xor (x y : aria_u128_t) : aria_u128_t :=
  ⟨x.left ^^^ y.left, x.right ^^^ y.right,
   Nat.xor_lt_two_pow x.left_lt y.left_lt, Nat.xor_lt_two_pow x.right_lt y.right_lt⟩

/- The four S-box tables of aria.c, 256 byte entries each. -/

def SB1 : List Nat :=
  [
  0x63, 0x7c, 0x77, 0x7b, 0xf2, 0x6b, 0x6f, 0xc5, 0x30, 0x01, 0x67, 0x2b, 0xfe, 0xd7, 0xab, 0x76,
  0xca, 0x82, 0xc9, 0x7d, 0xfa, 0x59, 0x47, 0xf0, 0xad, 0xd4, 0xa2, 0xaf, 0x9c, 0xa4, 0x72, 0xc0,
  0xb7, 0xfd, 0x93, 0x26, 0x36, 0x3f, 0xf7, 0xcc, 0x34, 0xa5, 0xe5, 0xf1, 0x71, 0xd8, 0x31, 0x15,
  0x04, 0xc7, 0x23, 0xc3, 0x18, 0x96, 0x05, 0x9a, 0x07, 0x12, 0x80, 0xe2, 0xeb, 0x27, 0xb2, 0x75,
  0x09, 0x83, 0x2c, 0x1a, 0x1b, 0x6e, 0x5a, 0xa0, 0x52, 0x3b, 0xd6, 0xb3, 0x29, 0xe3, 0x2f, 0x84,
  0x53, 0xd1, 0x00, 0xed, 0x20, 0xfc, 0xb1, 0x5b, 0x6a, 0xcb, 0xbe, 0x39, 0x4a, 0x4c, 0x58, 0xcf,
  0xd0, 0xef, 0xaa, 0xfb, 0x43, 0x4d, 0x33, 0x85, 0x45, 0xf9, 0x02, 0x7f, 0x50, 0x3c, 0x9f, 0xa8,
  0x51, 0xa3, 0x40, 0x8f, 0x92, 0x9d, 0x38, 0xf5, 0xbc, 0xb6, 0xda, 0x21, 0x10, 0xff, 0xf3, 0xd2,
  0xcd, 0x0c, 0x13, 0xec, 0x5f, 0x97, 0x44, 0x17, 0xc4, 0xa7, 0x7e, 0x3d, 0x64, 0x5d, 0x19, 0x73,
  0x60, 0x81, 0x4f, 0xdc, 0x22, 0x2a, 0x90, 0x88, 0x46, 0xee, 0xb8, 0x14, 0xde, 0x5e, 0x0b, 0xdb,
  0xe0, 0x32, 0x3a, 0x0a, 0x49, 0x06, 0x24, 0x5c, 0xc2, 0xd3, 0xac, 0x62, 0x91, 0x95, 0xe4, 0x79,
  0xe7, 0xc8, 0x37, 0x6d, 0x8d, 0xd5, 0x4e, 0xa9, 0x6c, 0x56, 0xf4, 0xea, 0x65, 0x7a, 0xae, 0x08,
  0xba, 0x78, 0x25, 0x2e, 0x1c, 0xa6, 0xb4, 0xc6, 0xe8, 0xdd, 0x74, 0x1f, 0x4b, 0xbd, 0x8b, 0x8a,
  0x70, 0x3e, 0xb5, 0x66, 0x48, 0x03, 0xf6, 0x0e, 0x61, 0x35, 0x57, 0xb9, 0x86, 0xc1, 0x1d, 0x9e,
  0xe1, 0xf8, 0x98, 0x11, 0x69, 0xd9, 0x8e, 0x94, 0x9b, 0x1e, 0x87, 0xe9, 0xce, 0x55, 0x28, 0xdf,
  0x8c, 0xa1, 0x89, 0x0d, 0xbf, 0xe6, 0x42, 0x68, 0x41, 0x99, 0x2d, 0x0f, 0xb0, 0x54, 0xbb, 0x16
  ]

def SB2 : List Nat :=
  [
  0xe2, 0x4e, 0x54, 0xfc, 0x94, 0xc2, 0x4a, 0xcc, 0x62, 0x0d, 0x6a, 0x46, 0x3c, 0x4d, 0x8b, 0xd1,
  0x5e, 0xfa, 0x64, 0xcb, 0xb4, 0x97, 0xbe, 0x2b, 0xbc, 0x77, 0x2e, 0x03, 0xd3, 0x19, 0x59, 0xc1,
  0x1d, 0x06, 0x41, 0x6b, 0x55, 0xf0, 0x99, 0x69, 0xea, 0x9c, 0x18, 0xae, 0x63, 0xdf, 0xe7, 0xbb,
  0x00, 0x73, 0x66, 0xfb, 0x96, 0x4c, 0x85, 0xe4, 0x3a, 0x09, 0x45, 0xaa, 0x0f, 0xee, 0x10, 0xeb,
  0x2d, 0x7f, 0xf4, 0x29, 0xac, 0xcf, 0xad, 0x91, 0x8d, 0x78, 0xc8, 0x95, 0xf9, 0x2f, 0xce, 0xcd,
  0x08, 0x7a, 0x88, 0x38, 0x5c, 0x83, 0x2a, 0x28, 0x47, 0xdb, 0xb8, 0xc7, 0x93, 0xa4, 0x12, 0x53,
  0xff, 0x87, 0x0e, 0x31, 0x36, 0x21, 0x58, 0x48, 0x01, 0x8e, 0x37, 0x74, 0x32, 0xca, 0xe9, 0xb1,
  0xb7, 0xab, 0x0c, 0xd7, 0xc4, 0x56, 0x42, 0x26, 0x07, 0x98, 0x60, 0xd9, 0xb6, 0xb9, 0x11, 0x40,
  0xec, 0x20, 0x8c, 0xbd, 0xa0, 0xc9, 0x84, 0x04, 0x49, 0x23, 0xf1, 0x4f, 0x50, 0x1f, 0x13, 0xdc,
  0xd8, 0xc0, 0x9e, 0x57, 0xe3, 0xc3, 0x7b, 0x65, 0x3b, 0x02, 0x8f, 0x3e, 0xe8, 0x25, 0x92, 0xe5,
  0x15, 0xdd, 0xfd, 0x17, 0xa9, 0xbf, 0xd4, 0x9a, 0x7e, 0xc5, 0x39, 0x67, 0xfe, 0x76, 0x9d, 0x43,
  0xa7, 0xe1, 0xd0, 0xf5, 0x68, 0xf2, 0x1b, 0x34, 0x70, 0x05, 0xa3, 0x8a, 0xd5, 0x79, 0x86, 0xa8,
  0x30, 0xc6, 0x51, 0x4b, 0x1e, 0xa6, 0x27, 0xf6, 0x35, 0xd2, 0x6e, 0x24, 0x16, 0x82, 0x5f, 0xda,
  0xe6, 0x75, 0xa2, 0xef, 0x2c, 0xb2, 0x1c, 0x9f, 0x5d, 0x6f, 0x80, 0x0a, 0x72, 0x44, 0x9b, 0x6c,
  0x90, 0x0b, 0x5b, 0x33, 0x7d, 0x5a, 0x52, 0xf3, 0x61, 0xa1, 0xf7, 0xb0, 0xd6, 0x3f, 0x7c, 0x6d,
  0xed, 0x14, 0xe0, 0xa5, 0x3d, 0x22, 0xb3, 0xf8, 0x89, 0xde, 0x71, 0x1a, 0xaf, 0xba, 0xb5, 0x81
  ]

def SB3 : List Nat :=
  [
  0x52, 0x09, 0x6a, 0xd5, 0x30, 0x36, 0xa5, 0x38, 0xbf, 0x40, 0xa3, 0x9e, 0x81, 0xf3, 0xd7, 0xfb,
  0x7c, 0xe3, 0x39, 0x82, 0x9b, 0x2f, 0xff, 0x87, 0x34, 0x8e, 0x43, 0x44, 0xc4, 0xde, 0xe9, 0xcb,
  0x54, 0x7b, 0x94, 0x32, 0xa6, 0xc2, 0x23, 0x3d, 0xee, 0x4c, 0x95, 0x0b, 0x42, 0xfa, 0xc3, 0x4e,
  0x08, 0x2e, 0xa1, 0x66, 0x28, 0xd9, 0x24, 0xb2, 0x76, 0x5b, 0xa2, 0x49, 0x6d, 0x8b, 0xd1, 0x25,
  0x72, 0xf8, 0xf6, 0x64, 0x86, 0x68, 0x98, 0x16, 0xd4, 0xa4, 0x5c, 0xcc, 0x5d, 0x65, 0xb6, 0x92,
  0x6c, 0x70, 0x48, 0x50, 0xfd, 0xed, 0xb9, 0xda, 0x5e, 0x15, 0x46, 0x57, 0xa7, 0x8d, 0x9d, 0x84,
  0x90, 0xd8, 0xab, 0x00, 0x8c, 0xbc, 0xd3, 0x0a, 0xf7, 0xe4, 0x58, 0x05, 0xb8, 0xb3, 0x45, 0x06,
  0xd0, 0x2c, 0x1e, 0x8f, 0xca, 0x3f, 0x0f, 0x02, 0xc1, 0xaf, 0xbd, 0x03, 0x01, 0x13, 0x8a, 0x6b,
  0x3a, 0x91, 0x11, 0x41, 0x4f, 0x67, 0xdc, 0xea, 0x97, 0xf2, 0xcf, 0xce, 0xf0, 0xb4, 0xe6, 0x73,
  0x96, 0xac, 0x74, 0x22, 0xe7, 0xad, 0x35, 0x85, 0xe2, 0xf9, 0x37, 0xe8, 0x1c, 0x75, 0xdf, 0x6e,
  0x47, 0xf1, 0x1a, 0x71, 0x1d, 0x29, 0xc5, 0x89, 0x6f, 0xb7, 0x62, 0x0e, 0xaa, 0x18, 0xbe, 0x1b,
  0xfc, 0x56, 0x3e, 0x4b, 0xc6, 0xd2, 0x79, 0x20, 0x9a, 0xdb, 0xc0, 0xfe, 0x78, 0xcd, 0x5a, 0xf4,
  0x1f, 0xdd, 0xa8, 0x33, 0x88, 0x07, 0xc7, 0x31, 0xb1, 0x12, 0x10, 0x59, 0x27, 0x80, 0xec, 0x5f,
  0x60, 0x51, 0x7f, 0xa9, 0x19, 0xb5, 0x4a, 0x0d, 0x2d, 0xe5, 0x7a, 0x9f, 0x93, 0xc9, 0x9c, 0xef,
  0xa0, 0xe0, 0x3b, 0x4d, 0xae, 0x2a, 0xf5, 0xb0, 0xc8, 0xeb, 0xbb, 0x3c, 0x83, 0x53, 0x99, 0x61,
  0x17, 0x2b, 0x04, 0x7e, 0xba, 0x77, 0xd6, 0x26, 0xe1, 0x69, 0x14, 0x63, 0x55, 0x21, 0x0c, 0x7d
  ]

def SB4 : List Nat :=
  [
  0x30, 0x68, 0x99, 0x1b, 0x87, 0xb9, 0x21, 0x78, 0x50, 0x39, 0xdb, 0xe1, 0x72, 0x09, 0x62, 0x3c,
  0x3e, 0x7e, 0x5e, 0x8e, 0xf1, 0xa0, 0xcc, 0xa3, 0x2a, 0x1d, 0xfb, 0xb6, 0xd6, 0x20, 0xc4, 0x8d,
  0x81, 0x65, 0xf5, 0x89, 0xcb, 0x9d, 0x77, 0xc6, 0x57, 0x43, 0x56, 0x17, 0xd4, 0x40, 0x1a, 0x4d,
  0xc0, 0x63, 0x6c, 0xe3, 0xb7, 0xc8, 0x64, 0x6a, 0x53, 0xaa, 0x38, 0x98, 0x0c, 0xf4, 0x9b, 0xed,
  0x7f, 0x22, 0x76, 0xaf, 0xdd, 0x3a, 0x0b, 0x58, 0x67, 0x88, 0x06, 0xc3, 0x35, 0x0d, 0x01, 0x8b,
  0x8c, 0xc2, 0xe6, 0x5f, 0x02, 0x24, 0x75, 0x93, 0x66, 0x1e, 0xe5, 0xe2, 0x54, 0xd8, 0x10, 0xce,
  0x7a, 0xe8, 0x08, 0x2c, 0x12, 0x97, 0x32, 0xab, 0xb4, 0x27, 0x0a, 0x23, 0xdf, 0xef, 0xca, 0xd9,
  0xb8, 0xfa, 0xdc, 0x31, 0x6b, 0xd1, 0xad, 0x19, 0x49, 0xbd, 0x51, 0x96, 0xee, 0xe4, 0xa8, 0x41,
  0xda, 0xff, 0xcd, 0x55, 0x86, 0x36, 0xbe, 0x61, 0x52, 0xf8, 0xbb, 0x0e, 0x82, 0x48, 0x69, 0x9a,
  0xe0, 0x47, 0x9e, 0x5c, 0x04, 0x4b, 0x34, 0x15, 0x79, 0x26, 0xa7, 0xde, 0x29, 0xae, 0x92, 0xd7,
  0x84, 0xe9, 0xd2, 0xba, 0x5d, 0xf3, 0xc5, 0xb0, 0xbf, 0xa4, 0x3b, 0x71, 0x44, 0x46, 0x2b, 0xfc,
  0xeb, 0x6f, 0xd5, 0xf6, 0x14, 0xfe, 0x7c, 0x70, 0x5a, 0x7d, 0xfd, 0x2f, 0x18, 0x83, 0x16, 0xa5,
  0x91, 0x1f, 0x05, 0x95, 0x74, 0xa9, 0xc1, 0x5b, 0x4a, 0x85, 0x6d, 0x13, 0x07, 0x4f, 0x4e, 0x45,
  0xb2, 0x0f, 0xc9, 0x1c, 0xa6, 0xbc, 0xec, 0x73, 0x90, 0x7b, 0xcf, 0x59, 0x8f, 0xa1, 0xf9, 0x2d,
  0xf2, 0xb1, 0x00, 0x94, 0x37, 0x9f, 0xd0, 0x2e, 0x9c, 0x6e, 0x28, 0x3f, 0x80, 0xf0, 0x3d, 0xd3,
  0x25, 0x8a, 0xb5, 0xe7, 0x42, 0xb3, 0xc7, 0xea, 0xf7, 0x4c, 0x11, 0x33, 0x03, 0xa2, 0xac, 0x60
  ]

theorem getD_lt_256 {l : List Nat} (hl : ∀ a ∈ l, a < 256) (i : Nat) : l.getD i 0 < 256 := by
  rw [List.getD_eq_getElem?_getD]
  cases h : l[i]? with
  | none => simp
  | some a =>
    obtain ⟨hi, rfl⟩ := List.getElem?_eq_some_iff.mp h
    simpa using hl _ (List.getElem_mem hi)

theorem SB1_getD_lt (i : Nat) : SB1.getD i 0 < 256 := getD_lt_256 (by decide) i

theorem SB2_getD_lt (i : Nat) : SB2.getD i 0 < 256 := getD_lt_256 (by decide) i

theorem SB3_getD_lt (i : Nat) : SB3.getD i 0 < 256 := getD_lt_256 (by decide) i

theorem SB4_getD_lt (i : Nat) : SB4.getD i 0 < 256 := getD_lt_256 (by decide) i

/- Byte extraction, as the x0 .. x15 macros of aria.c: byte 0 is the most
   significant byte of the left word, byte 15 the least significant byte of
   the right word. -/

def x0 (x : aria_u128_t) : Nat := x.left >>> 56

def x1 (x : aria_u128_t) : Nat := x.left >>> 48 &&& 255

def x2 (x : aria_u128_t) : Nat := x.left >>> 40 &&& 255

def x3 (x : aria_u128_t) : Nat := x.left >>> 32 &&& 255

def x4 (x : aria_u128_t) : Nat := x.left >>> 24 &&& 255

def x5 (x : aria_u128_t) : Nat := x.left >>> 16 &&& 255

def x6 (x : aria_u128_t) : Nat := x.left >>> 8 &&& 255

def x7 (x : aria_u128_t) : Nat := x.left &&& 255

def x8 (x : aria_u128_t) : Nat := x.right >>> 56

def x9 (x : aria_u128_t) : Nat := x.right >>> 48 &&& 255

def x10 (x : aria_u128_t) : Nat := x.right >>> 40 &&& 255

def x11 (x : aria_u128_t) : Nat := x.right >>> 32 &&& 255

def x12 (x : aria_u128_t) : Nat := x.right >>> 24 &&& 255

def x13 (x : aria_u128_t) : Nat := x.right >>> 16 &&& 255

def x14 (x : aria_u128_t) : Nat := x.right >>> 8 &&& 255

def x15 (x : aria_u128_t) : Nat := x.right &&& 255

theorem x0_lt (x : aria_u128_t) : x0 x < 256 := hi_byte_lt x.left_lt

theorem x1_lt (x : aria_u128_t) : x1 x < 256 := mid_byte_lt _ _

theorem x2_lt (x : aria_u128_t) : x2 x < 256 := mid_byte_lt _ _

theorem x3_lt (x : aria_u128_t) : x3 x < 256 := mid_byte_lt _ _

theorem x4_lt (x : aria_u128_t) : x4 x < 256 := mid_byte_lt _ _

theorem x5_lt (x : aria_u128_t) : x5 x < 256 := mid_byte_lt _ _

theorem x6_lt (x : aria_u128_t) : x6 x < 256 := mid_byte_lt _ _

theorem x7_lt (x : aria_u128_t) : x7 x < 256 := lo_byte_lt _

theorem x8_lt (x : aria_u128_t) : x8 x < 256 := hi_byte_lt x.right_lt

theorem x9_lt (x : aria_u128_t) : x9 x < 256 := mid_byte_lt _ _

theorem x10_lt (x : aria_u128_t) : x10 x < 256 := mid_byte_lt _ _

theorem x11_lt (x : aria_u128_t) : x11 x < 256 := mid_byte_lt _ _

theorem x12_lt (x : aria_u128_t) : x12 x < 256 := mid_byte_lt _ _

theorem x13_lt (x : aria_u128_t) : x13 x < 256 := mid_byte_lt _ _

theorem x14_lt (x : aria_u128_t) : x14 x < 256 := mid_byte_lt _ _

theorem x15_lt (x : aria_u128_t) : x15 x < 256 := lo_byte_lt _

/-- aria_SL1 from aria.c: type 1 substitution layer. -/
def aria_SL1 (x : aria_u128_t) : aria_u128_t :=
  ⟨assemble8 (SB1.getD (x0 x) 0) (SB2.getD (x1 x) 0) (SB3.getD (x2 x) 0) (SB4.getD (x3 x) 0)
             (SB1.getD (x4 x) 0) (SB2.getD (x5 x) 0) (SB3.getD (x6 x) 0) (SB4.getD (x7 x) 0),
   assemble8 (SB1.getD (x8 x) 0) (SB2.getD (x9 x) 0) (SB3.getD (x10 x) 0) (SB4.getD (x11 x) 0)
             (SB1.getD (x12 x) 0) (SB2.getD (x13 x) 0) (SB3.getD (x14 x) 0) (SB4.getD (x15 x) 0),
   assemble8_lt (SB1_getD_lt _) (SB2_getD_lt _) (SB3_getD_lt _) (SB4_getD_lt _)
     (SB1_getD_lt _) (SB2_getD_lt _) (SB3_getD_lt _) (SB4_getD_lt _),
   assemble8_lt (SB1_getD_lt _) (SB2_getD_lt _) (SB3_getD_lt _) (SB4_getD_lt _)
     (SB1_getD_lt _) (SB2_getD_lt _) (SB3_getD_lt _) (SB4_getD_lt _)⟩

/-- aria_SL2 from aria.c: type 2 substitution layer. -/
def aria_SL2 (x : aria_u128_t) : aria_u128_t :=
  ⟨assemble8 (SB3.getD (x0 x) 0) (SB4.getD (x1 x) 0) (SB1.getD (x2 x) 0) (SB2.getD (x3 x) 0)
             (SB3.getD (x4 x) 0) (SB4.getD (x5 x) 0) (SB1.getD (x6 x) 0) (SB2.getD (x7 x) 0),
   assemble8 (SB3.getD (x8 x) 0) (SB4.getD (x9 x) 0) (SB1.getD (x10 x) 0) (SB2.getD (x11 x) 0)
             (SB3.getD (x12 x) 0) (SB4.getD (x13 x) 0) (SB1.getD (x14 x) 0) (SB2.getD (x15 x) 0),
   assemble8_lt (SB3_getD_lt _) (SB4_getD_lt _) (SB1_getD_lt _) (SB2_getD_lt _)
     (SB3_getD_lt _) (SB4_getD_lt _) (SB1_getD_lt _) (SB2_getD_lt _),
   assemble8_lt (SB3_getD_lt _) (SB4_getD_lt _) (SB1_getD_lt _) (SB2_getD_lt _)
     (SB3_getD_lt _) (SB4_getD_lt _) (SB1_getD_lt _) (SB2_getD_lt _)⟩

/- The common subexpressions t0 .. t3 of the optimized diffusion layer in
   aria.c (local variables of aria_A). -/

def t0 (x : aria_u128_t) : Nat := x0 x ^^^ x7 x ^^^ x10 x ^^^ x13 x

def t1 (x : aria_u128_t) : Nat := x1 x ^^^ x6 x ^^^ x11 x ^^^ x12 x

def t2 (x : aria_u128_t) : Nat := x2 x ^^^ x5 x ^^^ x8 x ^^^ x15 x

def t3 (x : aria_u128_t) : Nat := x3 x ^^^ x4 x ^^^ x9 x ^^^ x14 x

theorem t0_lt (x : aria_u128_t) : t0 x < 256 :=
  xor_lt_256 (xor_lt_256 (xor_lt_256 (x0_lt x) (x7_lt x)) (x10_lt x)) (x13_lt x)

theorem t1_lt (x : aria_u128_t) : t1 x < 256 :=
  xor_lt_256 (xor_lt_256 (xor_lt_256 (x1_lt x) (x6_lt x)) (x11_lt x)) (x12_lt x)

theorem t2_lt (x : aria_u128_t) : t2 x < 256 :=
  xor_lt_256 (xor_lt_256 (xor_lt_256 (x2_lt x) (x5_lt x)) (x8_lt x)) (x15_lt x)

theorem t3_lt (x : aria_u128_t) : t3 x < 256 :=
  xor_lt_256 (xor_lt_256 (xor_lt_256 (x3_lt x) (x4_lt x)) (x9_lt x)) (x14_lt x)

/-- aria_A from aria.c: the diffusion layer, in the live optimized form that
precomputes the shared four-byte subexpressions t0 .. t3. -/
def aria_A (x : aria_u128_t) : aria_u128_t :=
  ⟨assemble8 (t3 x ^^^ x6 x ^^^ x8 x ^^^ x13 x)
             (t2 x ^^^ x7 x ^^^ x9 x ^^^ x12 x)
             (t1 x ^^^ x4 x ^^^ x10 x ^^^ x15 x)
             (t0 x ^^^ x5 x ^^^ x11 x ^^^ x14 x)
             (x0 x ^^^ t2 x ^^^ x11 x ^^^ x14 x)
             (x1 x ^^^ t3 x ^^^ x10 x ^^^ x15 x)
             (t0 x ^^^ x2 x ^^^ x9 x ^^^ x12 x)
             (t1 x ^^^ x3 x ^^^ x8 x ^^^ x13 x),
   assemble8 (t0 x ^^^ x1 x ^^^ x4 x ^^^ x15 x)
             (x0 x ^^^ t1 x ^^^ x5 x ^^^ x14 x)
             (t2 x ^^^ x3 x ^^^ x6 x ^^^ x13 x)
             (x2 x ^^^ t3 x ^^^ x7 x ^^^ x12 x)
             (t1 x ^^^ x2 x ^^^ x7 x ^^^ x9 x)
             (t0 x ^^^ x3 x ^^^ x6 x ^^^ x8 x)
             (x0 x ^^^ t3 x ^^^ x5 x ^^^ x11 x)
             (x1 x ^^^ t2 x ^^^ x4 x ^^^ x10 x),
   assemble8_lt
     (xor_lt_256 (xor_lt_256 (xor_lt_256 (t3_lt x) (x6_lt x)) (x8_lt x)) (x13_lt x))
     (xor_lt_256 (xor_lt_256 (xor_lt_256 (t2_lt x) (x7_lt x)) (x9_lt x)) (x12_lt x))
     (xor_lt_256 (xor_lt_256 (xor_lt_256 (t1_lt x) (x4_lt x)) (x10_lt x)) (x15_lt x))
     (xor_lt_256 (xor_lt_256 (xor_lt_256 (t0_lt x) (x5_lt x)) (x11_lt x)) (x14_lt x))
     (xor_lt_256 (xor_lt_256 (xor_lt_256 (x0_lt x) (t2_lt x)) (x11_lt x)) (x14_lt x))
     (xor_lt_256 (xor_lt_256 (xor_lt_256 (x1_lt x) (t3_lt x)) (x10_lt x)) (x15_lt x))
     (xor_lt_256 (xor_lt_256 (xor_lt_256 (t0_lt x) (x2_lt x)) (x9_lt x)) (x12_lt x))
     (xor_lt_256 (xor_lt_256 (xor_lt_256 (t1_lt x) (x3_lt x)) (x8_lt x)) (x13_lt x)),
   assemble8_lt
     (xor_lt_256 (xor_lt_256 (xor_lt_256 (t0_lt x) (x1_lt x)) (x4_lt x)) (x15_lt x))
     (xor_lt_256 (xor_lt_256 (xor_lt_256 (x0_lt x) (t1_lt x)) (x5_lt x)) (x14_lt x))
     (xor_lt_256 (xor_lt_256 (xor_lt_256 (t2_lt x) (x3_lt x)) (x6_lt x)) (x13_lt x))
     (xor_lt_256 (xor_lt_256 (xor_lt_256 (x2_lt x) (t3_lt x)) (x7_lt x)) (x12_lt x))
     (xor_lt_256 (xor_lt_256 (xor_lt_256 (t1_lt x) (x2_lt x)) (x7_lt x)) (x9_lt x))
     (xor_lt_256 (xor_lt_256 (xor_lt_256 (t0_lt x) (x3_lt x)) (x6_lt x)) (x8_lt x))
     (xor_lt_256 (xor_lt_256 (xor_lt_256 (x0_lt x) (t3_lt x)) (x5_lt x)) (x11_lt x))
     (xor_lt_256 (xor_lt_256 (xor_lt_256 (x1_lt x) (t2_lt x)) (x4_lt x)) (x10_lt x))⟩

/-- The direct form of the diffusion layer from the disabled branch of aria_A
in aria.c: each output byte is the exclusive or of its seven input bytes. -/
def aria_A_direct (x : aria_u128_t) : aria_u128_t :=
  ⟨assemble8 (x3 x ^^^ x4 x ^^^ x6 x ^^^ x8 x ^^^ x9 x ^^^ x13 x ^^^ x14 x)
             (x2 x ^^^ x5 x ^^^ x7 x ^^^ x8 x ^^^ x9 x ^^^ x12 x ^^^ x15 x)
             (x1 x ^^^ x4 x ^^^ x6 x ^^^ x10 x ^^^ x11 x ^^^ x12 x ^^^ x15 x)
             (x0 x ^^^ x5 x ^^^ x7 x ^^^ x10 x ^^^ x11 x ^^^ x13 x ^^^ x14 x)
             (x0 x ^^^ x2 x ^^^ x5 x ^^^ x8 x ^^^ x11 x ^^^ x14 x ^^^ x15 x)
             (x1 x ^^^ x3 x ^^^ x4 x ^^^ x9 x ^^^ x10 x ^^^ x14 x ^^^ x15 x)
             (x0 x ^^^ x2 x ^^^ x7 x ^^^ x9 x ^^^ x10 x ^^^ x12 x ^^^ x13 x)
             (x1 x ^^^ x3 x ^^^ x6 x ^^^ x8 x ^^^ x11 x ^^^ x12 x ^^^ x13 x),
   assemble8 (x0 x ^^^ x1 x ^^^ x4 x ^^^ x7 x ^^^ x10 x ^^^ x13 x ^^^ x15 x)
             (x0 x ^^^ x1 x ^^^ x5 x ^^^ x6 x ^^^ x11 x ^^^ x12 x ^^^ x14 x)
             (x2 x ^^^ x3 x ^^^ x5 x ^^^ x6 x ^^^ x8 x ^^^ x13 x ^^^ x15 x)
             (x2 x ^^^ x3 x ^^^ x4 x ^^^ x7 x ^^^ x9 x ^^^ x12 x ^^^ x14 x)
             (x1 x ^^^ x2 x ^^^ x6 x ^^^ x7 x ^^^ x9 x ^^^ x11 x ^^^ x12 x)
             (x0 x ^^^ x3 x ^^^ x6 x ^^^ x7 x ^^^ x8 x ^^^ x10 x ^^^ x13 x)
             (x0 x ^^^ x3 x ^^^ x4 x ^^^ x5 x ^^^ x9 x ^^^ x11 x ^^^ x14 x)
             (x1 x ^^^ x2 x ^^^ x4 x ^^^ x5 x ^^^ x8 x ^^^ x10 x ^^^ x15 x),
   assemble8_lt
     (xor_lt_256 (xor_lt_256 (xor_lt_256 (xor_lt_256 (xor_lt_256 (xor_lt_256 (x3_lt x) (x4_lt x)) (x6_lt x)) (x8_lt x)) (x9_lt x)) (x13_lt x)) (x14_lt x))
     (xor_lt_256 (xor_lt_256 (xor_lt_256 (xor_lt_256 (xor_lt_256 (xor_lt_256 (x2_lt x) (x5_lt x)) (x7_lt x)) (x8_lt x)) (x9_lt x)) (x12_lt x)) (x15_lt x))
     (xor_lt_256 (xor_lt_256 (xor_lt_256 (xor_lt_256 (xor_lt_256 (xor_lt_256 (x1_lt x) (x4_lt x)) (x6_lt x)) (x10_lt x)) (x11_lt x)) (x12_lt x)) (x15_lt x))
     (xor_lt_256 (xor_lt_256 (xor_lt_256 (xor_lt_256 (xor_lt_256 (xor_lt_256 (x0_lt x) (x5_lt x)) (x7_lt x)) (x10_lt x)) (x11_lt x)) (x13_lt x)) (x14_lt x))
     (xor_lt_256 (xor_lt_256 (xor_lt_256 (xor_lt_256 (xor_lt_256 (xor_lt_256 (x0_lt x) (x2_lt x)) (x5_lt x)) (x8_lt x)) (x11_lt x)) (x14_lt x)) (x15_lt x))
     (xor_lt_256 (xor_lt_256 (xor_lt_256 (xor_lt_256 (xor_lt_256 (xor_lt_256 (x1_lt x) (x3_lt x)) (x4_lt x)) (x9_lt x)) (x10_lt x)) (x14_lt x)) (x15_lt x))
     (xor_lt_256 (xor_lt_256 (xor_lt_256 (xor_lt_256 (xor_lt_256 (xor_lt_256 (x0_lt x) (x2_lt x)) (x7_lt x)) (x9_lt x)) (x10_lt x)) (x12_lt x)) (x13_lt x))
     (xor_lt_256 (xor_lt_256 (xor_lt_256 (xor_lt_256 (xor_lt_256 (xor_lt_256 (x1_lt x) (x3_lt x)) (x6_lt x)) (x8_lt x)) (x11_lt x)) (x12_lt x)) (x13_lt x)),
   assemble8_lt
     (xor_lt_256 (xor_lt_256 (xor_lt_256 (xor_lt_256 (xor_lt_256 (xor_lt_256 (x0_lt x) (x1_lt x)) (x4_lt x)) (x7_lt x)) (x10_lt x)) (x13_lt x)) (x15_lt x))
     (xor_lt_256 (xor_lt_256 (xor_lt_256 (xor_lt_256 (xor_lt_256 (xor_lt_256 (x0_lt x) (x1_lt x)) (x5_lt x)) (x6_lt x)) (x11_lt x)) (x12_lt x)) (x14_lt x))
     (xor_lt_256 (xor_lt_256 (xor_lt_256 (xor_lt_256 (xor_lt_256 (xor_lt_256 (x2_lt x) (x3_lt x)) (x5_lt x)) (x6_lt x)) (x8_lt x)) (x13_lt x)) (x15_lt x))
     (xor_lt_256 (xor_lt_256 (xor_lt_256 (xor_lt_256 (xor_lt_256 (xor_lt_256 (x2_lt x) (x3_lt x)) (x4_lt x)) (x7_lt x)) (x9_lt x)) (x12_lt x)) (x14_lt x))
     (xor_lt_256 (xor_lt_256 (xor_lt_256 (xor_lt_256 (xor_lt_256 (xor_lt_256 (x1_lt x) (x2_lt x)) (x6_lt x)) (x7_lt x)) (x9_lt x)) (x11_lt x)) (x12_lt x))
     (xor_lt_256 (xor_lt_256 (xor_lt_256 (xor_lt_256 (xor_lt_256 (xor_lt_256 (x0_lt x) (x3_lt x)) (x6_lt x)) (x7_lt x)) (x8_lt x)) (x10_lt x)) (x13_lt x))
     (xor_lt_256 (xor_lt_256 (xor_lt_256 (xor_lt_256 (xor_lt_256 (xor_lt_256 (x0_lt x) (x3_lt x)) (x4_lt x)) (x5_lt x)) (x9_lt x)) (x11_lt x)) (x14_lt x))
     (xor_lt_256 (xor_lt_256 (xor_lt_256 (xor_lt_256 (xor_lt_256 (xor_lt_256 (x1_lt x) (x2_lt x)) (x4_lt x)) (x5_lt x)) (x8_lt x)) (x10_lt x)) (x15_lt x))⟩

/-- aria_FO from aria.c: the odd round function. -/
def aria_FO (d rk : aria_u128_t) : aria_u128_t := aria_A (aria_SL1 (xor d rk))

/-- aria_FE from aria.c: the even round function. -/
def aria_FE (d rk : aria_u128_t) : aria_u128_t := aria_A (aria_SL2 (xor d rk))

/-- compute_ek from aria.c: the 17 encryption round-key candidates, stored at
indices 1 .. 17; index 0 is the uninitialized scratch slot. -/
def compute_ek (W0 W1 W2 W3 : aria_u128_t) : List aria_u128_t :=
  [ zero128
  , xor W0 (ror W1 19), xor W1 (ror W2 19), xor W2 (ror W3 19), xor (ror W0 19) W3
  , xor W0 (ror W1 31), xor W1 (ror W2 31), xor W2 (ror W3 31), xor (ror W0 31) W3
  , xor W0 (rol W1 61), xor W1 (rol W2 61), xor W2 (rol W3 61), xor (rol W0 61) W3
  , xor W0 (rol W1 31), xor W1 (rol W2 31), xor W2 (rol W3 31), xor (rol W0 31) W3
  , xor W0 (rol W1 19) ]

/-- The key schedule constant C1 of aria.c. -/
def C1 : aria_u128_t := ⟨0x517cc1b727220a94, 0xfe13abe8fa9a6ee0, by norm_num, by norm_num⟩

/-- The key schedule constant C2 of aria.c. -/
def C2 : aria_u128_t := ⟨0x6db14acc9e21c820, 0xff28b1d5ef5de2b0, by norm_num, by norm_num⟩

/-- The key schedule constant C3 of aria.c. -/
def C3 : aria_u128_t := ⟨0xdb92371d2126e970, 0x0324977504e8c90e, by norm_num, by norm_num⟩

/-- The interior-round loop of aria_crypt in aria.c, with explicit fuel; each
iteration performs one even and one odd round.  Fuel at least rounds / 2
suffices, so the callers pass rounds. -/
def aria_crypt_loop : Nat → Nat → Nat → List aria_u128_t → aria_u128_t → aria_u128_t
  | 0, _, _, _, P => P
  | fuel+1, i, rounds, ek, P =>
    if i < rounds then
      aria_crypt_loop fuel (i+2) rounds ek
        (aria_FO (aria_FE P (ek.getD i zero128)) (ek.getD (i+1) zero128))
    else P

/-- aria_crypt from aria.c: the crypt engine for a given even round count and
round-key array. -/
def aria_crypt (rounds : Nat) (ek : List aria_u128_t) (Plaintext : aria_u128_t) : aria_u128_t :=
  let P := aria_crypt_loop rounds 2 rounds ek (aria_FO Plaintext (ek.getD 1 zero128))
  xor (aria_SL2 (xor P (ek.getD rounds zero128))) (ek.getD (rounds + 1) zero128)

/-- aria_encrypt_128 from aria.c. -/
def aria_encrypt_128 (Key Plaintext : aria_u128_t) : aria_u128_t :=
  let W0 := Key
  let W1 := aria_FO W0 C1
  let W2 := xor (aria_FE W1 C2) W0
  let W3 := xor (aria_FO W2 C3) W1
  aria_crypt 12 (compute_ek W0 W1 W2 W3) Plaintext

/-- aria_encrypt_192 from aria.c. -/
def aria_encrypt_192 (KeyLeft KeyRight Plaintext : aria_u128_t) : aria_u128_t :=
  let W0 := KeyLeft
  let W1 := xor (aria_FO W0 C2) KeyRight
  let W2 := xor (aria_FE W1 C3) W0
  let W3 := xor (aria_FO W2 C1) W1
  aria_crypt 14 (compute_ek W0 W1 W2 W3) Plaintext

/-- aria_encrypt_256 from aria.c. -/
def aria_encrypt_256 (KeyLeft KeyRight Plaintext : aria_u128_t) : aria_u128_t :=
  let W0 := KeyLeft
  let W1 := xor (aria_FO W0 C3) KeyRight
  let W2 := xor (aria_FE W1 C1) W0
  let W3 := xor (aria_FO W2 C2) W1
  aria_crypt 16 (compute_ek W0 W1 W2 W3) Plaintext

/-- The interior swap loop of the decryption-key derivation in aria.c
(aria_decrypt_NNN): slot 0 is the scratch slot; each iteration swaps the
entries at i and j and applies the diffusion layer to both.  Fuel at least
(j - i) / 2 suffices, so the callers pass rounds + 1. -/
def dk_swap_loop : Nat → Nat → Nat → List aria_u128_t → List aria_u128_t
  | 0, _, _, ek => ek
  | fuel+1, i, j, ek =>
    if i < j then
      let eka := ek.set 0 (ek.getD j zero128)
      let ekb := eka.set j (aria_A (eka.getD i zero128))
      let ekc := ekb.set i (aria_A (ekb.getD 0 zero128))
      dk_swap_loop fuel (i+1) (j-1) ekc
    else ek

/-- The decryption-key derivation inlined in aria_decrypt_NNN of aria.c:
swap the first and last round keys through scratch slot 0, swap-and-diffuse
the interior pairs, and diffuse the middle entry (index rounds / 2 + 1,
which is 7, 8, 9 for 12, 14, 16 rounds). -/
def derive_dk (rounds : Nat) (ek : List aria_u128_t) : List aria_u128_t :=
  let eka := ek.set 0 (ek.getD (rounds + 1) zero128)
  let ekb := eka.set (rounds + 1) (eka.getD 1 zero128)
  let ekc := ekb.set 1 (ekb.getD 0 zero128)
  let ekd := dk_swap_loop (rounds + 1) 2 rounds ekc
  ekd.set (rounds / 2 + 1) (aria_A (ekd.getD (rounds / 2 + 1) zero128))

/-- aria_decrypt_128 from aria.c. -/
def aria_decrypt_128 (Key Ciphertext : aria_u128_t) : aria_u128_t :=
  let W0 := Key
  let W1 := aria_FO W0 C1
  let W2 := xor (aria_FE W1 C2) W0
  let W3 := xor (aria_FO W2 C3) W1
  aria_crypt 12 (derive_dk 12 (compute_ek W0 W1 W2 W3)) Ciphertext

/-- aria_decrypt_192 from aria.c. -/
def aria_decrypt_192 (KeyLeft KeyRight Ciphertext : aria_u128_t) : aria_u128_t :=
  let W0 := KeyLeft
  let W1 := xor (aria_FO W0 C2) KeyRight
  let W2 := xor (aria_FE W1 C3) W0
  let W3 := xor (aria_FO W2 C1) W1
  aria_crypt 14 (derive_dk 14 (compute_ek W0 W1 W2 W3)) Ciphertext

/-- aria_decrypt_256 from aria.c. -/
def aria_decrypt_256 (KeyLeft KeyRight Ciphertext : aria_u128_t) : aria_u128_t :=
  let W0 := KeyLeft
  let W1 := xor (aria_FO W0 C3) KeyRight
  let W2 := xor (aria_FE W1 C1) W0
  let W3 := xor (aria_FO W2 C2) W1
  aria_crypt 16 (derive_dk 16 (compute_ek W0 W1 W2 W3)) Ciphertext

/- Inversion facts for the substitution tables (RFC 5794: SB3 and SB4 are the
   inverse functions of SB1 and SB2). -/

theorem SB3_SB1 : ∀ b, b < 256 → SB3.getD (SB1.getD b 0) 0 = b := by decide

theorem SB4_SB2 : ∀ b, b < 256 → SB4.getD (SB2.getD b 0) 0 = b := by decide

theorem SB1_SB3 : ∀ b, b < 256 → SB1.getD (SB3.getD b 0) 0 = b := by decide

theorem SB2_SB4 : ∀ b, b < 256 → SB2.getD (SB4.getD b 0) 0 = b := by decide

theorem SB3_SB1h {b : Nat} (h : b < 256) : SB3.getD (SB1.getD b 0) 0 = b := SB3_SB1 b h

theorem SB4_SB2h {b : Nat} (h : b < 256) : SB4.getD (SB2.getD b 0) 0 = b := SB4_SB2 b h

theorem SB1_SB3h {b : Nat} (h : b < 256) : SB1.getD (SB3.getD b 0) 0 = b := SB1_SB3 b h

theorem SB2_SB4h {b : Nat} (h : b < 256) : SB2.getD (SB4.getD b 0) 0 = b := SB2_SB4 b h

/- Algebra of the 128-bit xor. -/

theorem xor_cancel (a b : aria_u128_t) : xor (xor a b) b = a := by
  apply u128_ext <;> simp [xor, Nat.xor_assoc]

theorem xor_zero128 (a : aria_u128_t) : xor a zero128 = a := by
  apply u128_ext <;> simp [xor, zero128]

theorem assemble8_congr {a0 a1 a2 a3 a4 a5 a6 a7 b0 b1 b2 b3 b4 b5 b6 b7 : Nat}
    (h0 : a0 = b0) (h1 : a1 = b1) (h2 : a2 = b2) (h3 : a3 = b3)
    (h4 : a4 = b4) (h5 : a5 = b5) (h6 : a6 = b6) (h7 : a7 = b7) :
    assemble8 a0 a1 a2 a3 a4 a5 a6 a7 = assemble8 b0 b1 b2 b3 b4 b5 b6 b7 := by
  rw [h0, h1, h2, h3, h4, h5, h6, h7]

/- The substitution layers are mutually inverse. -/


theorem assemble8_xor {a0 a1 a2 a3 a4 a5 a6 a7 b0 b1 b2 b3 b4 b5 b6 b7 : Nat}
    (ha0 : a0 < 256) (ha1 : a1 < 256) (ha2 : a2 < 256) (ha3 : a3 < 256)
    (ha4 : a4 < 256) (ha5 : a5 < 256) (ha6 : a6 < 256) (ha7 : a7 < 256)
    (hb0 : b0 < 256) (hb1 : b1 < 256) (hb2 : b2 < 256) (hb3 : b3 < 256)
    (hb4 : b4 < 256) (hb5 : b5 < 256) (hb6 : b6 < 256) (hb7 : b7 < 256) :
    assemble8 a0 a1 a2 a3 a4 a5 a6 a7 ^^^ assemble8 b0 b1 b2 b3 b4 b5 b6 b7 =
      assemble8 (a0 ^^^ b0) (a1 ^^^ b1) (a2 ^^^ b2) (a3 ^^^ b3)
        (a4 ^^^ b4) (a5 ^^^ b5) (a6 ^^^ b6) (a7 ^^^ b7) := by
  have hA : assemble8 a0 a1 a2 a3 a4 a5 a6 a7 < 2 ^ 64 :=
    assemble8_lt ha0 ha1 ha2 ha3 ha4 ha5 ha6 ha7
  have hB : assemble8 b0 b1 b2 b3 b4 b5 b6 b7 < 2 ^ 64 :=
    assemble8_lt hb0 hb1 hb2 hb3 hb4 hb5 hb6 hb7
  have hX : assemble8 a0 a1 a2 a3 a4 a5 a6 a7 ^^^ assemble8 b0 b1 b2 b3 b4 b5 b6 b7 < 2 ^ 64 :=
    Nat.xor_lt_two_pow hA hB
  rw [← reassemble hX]
  apply assemble8_congr <;>
    simp only [xor_shiftRight, Nat.and_xor_distrib_right, ex0, ex1, ex2, ex3, ex4, ex5, ex6,
      ex7, ha0, ha1, ha2, ha3, ha4, ha5, ha6, ha7, hb0, hb1, hb2, hb3, hb4, hb5, hb6, hb7]

/- One-level projection lemmas for the layer outputs. -/

theorem xor_left (u v : aria_u128_t) : (xor u v).left = u.left ^^^ v.left := rfl

theorem xor_right (u v : aria_u128_t) : (xor u v).right = u.right ^^^ v.right := rfl

theorem aria_A_left (y : aria_u128_t) :
    (aria_A y).left =
      assemble8 (t3 y ^^^ x6 y ^^^ x8 y ^^^ x13 y)
        (t2 y ^^^ x7 y ^^^ x9 y ^^^ x12 y)
        (t1 y ^^^ x4 y ^^^ x10 y ^^^ x15 y)
        (t0 y ^^^ x5 y ^^^ x11 y ^^^ x14 y)
        (x0 y ^^^ t2 y ^^^ x11 y ^^^ x14 y)
        (x1 y ^^^ t3 y ^^^ x10 y ^^^ x15 y)
        (t0 y ^^^ x2 y ^^^ x9 y ^^^ x12 y)
        (t1 y ^^^ x3 y ^^^ x8 y ^^^ x13 y) := rfl

theorem aria_A_right (y : aria_u128_t) :
    (aria_A y).right =
      assemble8 (t0 y ^^^ x1 y ^^^ x4 y ^^^ x15 y)
        (x0 y ^^^ t1 y ^^^ x5 y ^^^ x14 y)
        (t2 y ^^^ x3 y ^^^ x6 y ^^^ x13 y)
        (x2 y ^^^ t3 y ^^^ x7 y ^^^ x12 y)
        (t1 y ^^^ x2 y ^^^ x7 y ^^^ x9 y)
        (t0 y ^^^ x3 y ^^^ x6 y ^^^ x8 y)
        (x0 y ^^^ t3 y ^^^ x5 y ^^^ x11 y)
        (x1 y ^^^ t2 y ^^^ x4 y ^^^ x10 y) := rfl

theorem aria_A_direct_left (y : aria_u128_t) :
    (aria_A_direct y).left =
      assemble8 (x3 y ^^^ x4 y ^^^ x6 y ^^^ x8 y ^^^ x9 y ^^^ x13 y ^^^ x14 y)
        (x2 y ^^^ x5 y ^^^ x7 y ^^^ x8 y ^^^ x9 y ^^^ x12 y ^^^ x15 y)
        (x1 y ^^^ x4 y ^^^ x6 y ^^^ x10 y ^^^ x11 y ^^^ x12 y ^^^ x15 y)
        (x0 y ^^^ x5 y ^^^ x7 y ^^^ x10 y ^^^ x11 y ^^^ x13 y ^^^ x14 y)
        (x0 y ^^^ x2 y ^^^ x5 y ^^^ x8 y ^^^ x11 y ^^^ x14 y ^^^ x15 y)
        (x1 y ^^^ x3 y ^^^ x4 y ^^^ x9 y ^^^ x10 y ^^^ x14 y ^^^ x15 y)
        (x0 y ^^^ x2 y ^^^ x7 y ^^^ x9 y ^^^ x10 y ^^^ x12 y ^^^ x13 y)
        (x1 y ^^^ x3 y ^^^ x6 y ^^^ x8 y ^^^ x11 y ^^^ x12 y ^^^ x13 y) := rfl

theorem aria_A_direct_right (y : aria_u128_t) :
    (aria_A_direct y).right =
      assemble8 (x0 y ^^^ x1 y ^^^ x4 y ^^^ x7 y ^^^ x10 y ^^^ x13 y ^^^ x15 y)
        (x0 y ^^^ x1 y ^^^ x5 y ^^^ x6 y ^^^ x11 y ^^^ x12 y ^^^ x14 y)
        (x2 y ^^^ x3 y ^^^ x5 y ^^^ x6 y ^^^ x8 y ^^^ x13 y ^^^ x15 y)
        (x2 y ^^^ x3 y ^^^ x4 y ^^^ x7 y ^^^ x9 y ^^^ x12 y ^^^ x14 y)
        (x1 y ^^^ x2 y ^^^ x6 y ^^^ x7 y ^^^ x9 y ^^^ x11 y ^^^ x12 y)
        (x0 y ^^^ x3 y ^^^ x6 y ^^^ x7 y ^^^ x8 y ^^^ x10 y ^^^ x13 y)
        (x0 y ^^^ x3 y ^^^ x4 y ^^^ x5 y ^^^ x9 y ^^^ x11 y ^^^ x14 y)
        (x1 y ^^^ x2 y ^^^ x4 y ^^^ x5 y ^^^ x8 y ^^^ x10 y ^^^ x15 y) := rfl

theorem aria_SL1_left (y : aria_u128_t) :
    (aria_SL1 y).left =
      assemble8 (SB1.getD (x0 y) 0)
        (SB2.getD (x1 y) 0)
        (SB3.getD (x2 y) 0)
        (SB4.getD (x3 y) 0)
        (SB1.getD (x4 y) 0)
        (SB2.getD (x5 y) 0)
        (SB3.getD (x6 y) 0)
        (SB4.getD (x7 y) 0) := rfl

theorem aria_SL1_right (y : aria_u128_t) :
    (aria_SL1 y).right =
      assemble8 (SB1.getD (x8 y) 0)
        (SB2.getD (x9 y) 0)
        (SB3.getD (x10 y) 0)
        (SB4.getD (x11 y) 0)
        (SB1.getD (x12 y) 0)
        (SB2.getD (x13 y) 0)
        (SB3.getD (x14 y) 0)
        (SB4.getD (x15 y) 0) := rfl

theorem aria_SL2_left (y : aria_u128_t) :
    (aria_SL2 y).left =
      assemble8 (SB3.getD (x0 y) 0)
        (SB4.getD (x1 y) 0)
        (SB1.getD (x2 y) 0)
        (SB2.getD (x3 y) 0)
        (SB3.getD (x4 y) 0)
        (SB4.getD (x5 y) 0)
        (SB1.getD (x6 y) 0)
        (SB2.getD (x7 y) 0) := rfl

theorem aria_SL2_right (y : aria_u128_t) :
    (aria_SL2 y).right =
      assemble8 (SB3.getD (x8 y) 0)
        (SB4.getD (x9 y) 0)
        (SB1.getD (x10 y) 0)
        (SB2.getD (x11 y) 0)
        (SB3.getD (x12 y) 0)
        (SB4.getD (x13 y) 0)
        (SB1.getD (x14 y) 0)
        (SB2.getD (x15 y) 0) := rfl

/- Reassembly of a value from its sixteen bytes. -/

theorem reassemble_left (x : aria_u128_t) :
    assemble8 (x0 x) (x1 x) (x2 x) (x3 x) (x4 x) (x5 x) (x6 x) (x7 x) = x.left := by
  simp only [x0, x1, x2, x3, x4, x5, x6, x7]
  exact reassemble x.left_lt

theorem reassemble_right (x : aria_u128_t) :
    assemble8 (x8 x) (x9 x) (x10 x) (x11 x) (x12 x) (x13 x) (x14 x) (x15 x) = x.right := by
  simp only [x8, x9, x10, x11, x12, x13, x14, x15]
  exact reassemble x.right_lt

/- Per-byte characterization of the layers. -/

theorem x0_A (y : aria_u128_t) : x0 (aria_A y) = t3 y ^^^ x6 y ^^^ x8 y ^^^ x13 y := by
  simp only [x0, aria_A_left]
  exact ex0 (xor_lt_256 (xor_lt_256 (xor_lt_256 (t3_lt y) (x6_lt y)) (x8_lt y)) (x13_lt y)) (xor_lt_256 (xor_lt_256 (xor_lt_256 (t2_lt y) (x7_lt y)) (x9_lt y)) (x12_lt y)) (xor_lt_256 (xor_lt_256 (xor_lt_256 (t1_lt y) (x4_lt y)) (x10_lt y)) (x15_lt y)) (xor_lt_256 (xor_lt_256 (xor_lt_256 (t0_lt y) (x5_lt y)) (x11_lt y)) (x14_lt y)) (xor_lt_256 (xor_lt_256 (xor_lt_256 (x0_lt y) (t2_lt y)) (x11_lt y)) (x14_lt y)) (xor_lt_256 (xor_lt_256 (xor_lt_256 (x1_lt y) (t3_lt y)) (x10_lt y)) (x15_lt y)) (xor_lt_256 (xor_lt_256 (xor_lt_256 (t0_lt y) (x2_lt y)) (x9_lt y)) (x12_lt y)) (xor_lt_256 (xor_lt_256 (xor_lt_256 (t1_lt y) (x3_lt y)) (x8_lt y)) (x13_lt y))

theorem x1_A (y : aria_u128_t) : x1 (aria_A y) = t2 y ^^^ x7 y ^^^ x9 y ^^^ x12 y := by
  simp only [x1, aria_A_left]
  exact ex1 (xor_lt_256 (xor_lt_256 (xor_lt_256 (t3_lt y) (x6_lt y)) (x8_lt y)) (x13_lt y)) (xor_lt_256 (xor_lt_256 (xor_lt_256 (t2_lt y) (x7_lt y)) (x9_lt y)) (x12_lt y)) (xor_lt_256 (xor_lt_256 (xor_lt_256 (t1_lt y) (x4_lt y)) (x10_lt y)) (x15_lt y)) (xor_lt_256 (xor_lt_256 (xor_lt_256 (t0_lt y) (x5_lt y)) (x11_lt y)) (x14_lt y)) (xor_lt_256 (xor_lt_256 (xor_lt_256 (x0_lt y) (t2_lt y)) (x11_lt y)) (x14_lt y)) (xor_lt_256 (xor_lt_256 (xor_lt_256 (x1_lt y) (t3_lt y)) (x10_lt y)) (x15_lt y)) (xor_lt_256 (xor_lt_256 (xor_lt_256 (t0_lt y) (x2_lt y)) (x9_lt y)) (x12_lt y)) (xor_lt_256 (xor_lt_256 (xor_lt_256 (t1_lt y) (x3_lt y)) (x8_lt y)) (x13_lt y))

theorem x2_A (y : aria_u128_t) : x2 (aria_A y) = t1 y ^^^ x4 y ^^^ x10 y ^^^ x15 y := by
  simp only [x2, aria_A_left]
  exact ex2 (xor_lt_256 (xor_lt_256 (xor_lt_256 (t3_lt y) (x6_lt y)) (x8_lt y)) (x13_lt y)) (xor_lt_256 (xor_lt_256 (xor_lt_256 (t2_lt y) (x7_lt y)) (x9_lt y)) (x12_lt y)) (xor_lt_256 (xor_lt_256 (xor_lt_256 (t1_lt y) (x4_lt y)) (x10_lt y)) (x15_lt y)) (xor_lt_256 (xor_lt_256 (xor_lt_256 (t0_lt y) (x5_lt y)) (x11_lt y)) (x14_lt y)) (xor_lt_256 (xor_lt_256 (xor_lt_256 (x0_lt y) (t2_lt y)) (x11_lt y)) (x14_lt y)) (xor_lt_256 (xor_lt_256 (xor_lt_256 (x1_lt y) (t3_lt y)) (x10_lt y)) (x15_lt y)) (xor_lt_256 (xor_lt_256 (xor_lt_256 (t0_lt y) (x2_lt y)) (x9_lt y)) (x12_lt y)) (xor_lt_256 (xor_lt_256 (xor_lt_256 (t1_lt y) (x3_lt y)) (x8_lt y)) (x13_lt y))

theorem x3_A (y : aria_u128_t) : x3 (aria_A y) = t0 y ^^^ x5 y ^^^ x11 y ^^^ x14 y := by
  simp only [x3, aria_A_left]
  exact ex3 (xor_lt_256 (xor_lt_256 (xor_lt_256 (t3_lt y) (x6_lt y)) (x8_lt y)) (x13_lt y)) (xor_lt_256 (xor_lt_256 (xor_lt_256 (t2_lt y) (x7_lt y)) (x9_lt y)) (x12_lt y)) (xor_lt_256 (xor_lt_256 (xor_lt_256 (t1_lt y) (x4_lt y)) (x10_lt y)) (x15_lt y)) (xor_lt_256 (xor_lt_256 (xor_lt_256 (t0_lt y) (x5_lt y)) (x11_lt y)) (x14_lt y)) (xor_lt_256 (xor_lt_256 (xor_lt_256 (x0_lt y) (t2_lt y)) (x11_lt y)) (x14_lt y)) (xor_lt_256 (xor_lt_256 (xor_lt_256 (x1_lt y) (t3_lt y)) (x10_lt y)) (x15_lt y)) (xor_lt_256 (xor_lt_256 (xor_lt_256 (t0_lt y) (x2_lt y)) (x9_lt y)) (x12_lt y)) (xor_lt_256 (xor_lt_256 (xor_lt_256 (t1_lt y) (x3_lt y)) (x8_lt y)) (x13_lt y))

theorem x4_A (y : aria_u128_t) : x4 (aria_A y) = x0 y ^^^ t2 y ^^^ x11 y ^^^ x14 y := by
  simp only [x4, aria_A_left]
  exact ex4 (xor_lt_256 (xor_lt_256 (xor_lt_256 (t3_lt y) (x6_lt y)) (x8_lt y)) (x13_lt y)) (xor_lt_256 (xor_lt_256 (xor_lt_256 (t2_lt y) (x7_lt y)) (x9_lt y)) (x12_lt y)) (xor_lt_256 (xor_lt_256 (xor_lt_256 (t1_lt y) (x4_lt y)) (x10_lt y)) (x15_lt y)) (xor_lt_256 (xor_lt_256 (xor_lt_256 (t0_lt y) (x5_lt y)) (x11_lt y)) (x14_lt y)) (xor_lt_256 (xor_lt_256 (xor_lt_256 (x0_lt y) (t2_lt y)) (x11_lt y)) (x14_lt y)) (xor_lt_256 (xor_lt_256 (xor_lt_256 (x1_lt y) (t3_lt y)) (x10_lt y)) (x15_lt y)) (xor_lt_256 (xor_lt_256 (xor_lt_256 (t0_lt y) (x2_lt y)) (x9_lt y)) (x12_lt y)) (xor_lt_256 (xor_lt_256 (xor_lt_256 (t1_lt y) (x3_lt y)) (x8_lt y)) (x13_lt y))

theorem x5_A (y : aria_u128_t) : x5 (aria_A y) = x1 y ^^^ t3 y ^^^ x10 y ^^^ x15 y := by
  simp only [x5, aria_A_left]
  exact ex5 (xor_lt_256 (xor_lt_256 (xor_lt_256 (t3_lt y) (x6_lt y)) (x8_lt y)) (x13_lt y)) (xor_lt_256 (xor_lt_256 (xor_lt_256 (t2_lt y) (x7_lt y)) (x9_lt y)) (x12_lt y)) (xor_lt_256 (xor_lt_256 (xor_lt_256 (t1_lt y) (x4_lt y)) (x10_lt y)) (x15_lt y)) (xor_lt_256 (xor_lt_256 (xor_lt_256 (t0_lt y) (x5_lt y)) (x11_lt y)) (x14_lt y)) (xor_lt_256 (xor_lt_256 (xor_lt_256 (x0_lt y) (t2_lt y)) (x11_lt y)) (x14_lt y)) (xor_lt_256 (xor_lt_256 (xor_lt_256 (x1_lt y) (t3_lt y)) (x10_lt y)) (x15_lt y)) (xor_lt_256 (xor_lt_256 (xor_lt_256 (t0_lt y) (x2_lt y)) (x9_lt y)) (x12_lt y)) (xor_lt_256 (xor_lt_256 (xor_lt_256 (t1_lt y) (x3_lt y)) (x8_lt y)) (x13_lt y))

theorem x6_A (y : aria_u128_t) : x6 (aria_A y) = t0 y ^^^ x2 y ^^^ x9 y ^^^ x12 y := by
  simp only [x6, aria_A_left]
  exact ex6 (xor_lt_256 (xor_lt_256 (xor_lt_256 (t3_lt y) (x6_lt y)) (x8_lt y)) (x13_lt y)) (xor_lt_256 (xor_lt_256 (xor_lt_256 (t2_lt y) (x7_lt y)) (x9_lt y)) (x12_lt y)) (xor_lt_256 (xor_lt_256 (xor_lt_256 (t1_lt y) (x4_lt y)) (x10_lt y)) (x15_lt y)) (xor_lt_256 (xor_lt_256 (xor_lt_256 (t0_lt y) (x5_lt y)) (x11_lt y)) (x14_lt y)) (xor_lt_256 (xor_lt_256 (xor_lt_256 (x0_lt y) (t2_lt y)) (x11_lt y)) (x14_lt y)) (xor_lt_256 (xor_lt_256 (xor_lt_256 (x1_lt y) (t3_lt y)) (x10_lt y)) (x15_lt y)) (xor_lt_256 (xor_lt_256 (xor_lt_256 (t0_lt y) (x2_lt y)) (x9_lt y)) (x12_lt y)) (xor_lt_256 (xor_lt_256 (xor_lt_256 (t1_lt y) (x3_lt y)) (x8_lt y)) (x13_lt y))

theorem x7_A (y : aria_u128_t) : x7 (aria_A y) = t1 y ^^^ x3 y ^^^ x8 y ^^^ x13 y := by
  simp only [x7, aria_A_left]
  exact ex7 (xor_lt_256 (xor_lt_256 (xor_lt_256 (t3_lt y) (x6_lt y)) (x8_lt y)) (x13_lt y)) (xor_lt_256 (xor_lt_256 (xor_lt_256 (t2_lt y) (x7_lt y)) (x9_lt y)) (x12_lt y)) (xor_lt_256 (xor_lt_256 (xor_lt_256 (t1_lt y) (x4_lt y)) (x10_lt y)) (x15_lt y)) (xor_lt_256 (xor_lt_256 (xor_lt_256 (t0_lt y) (x5_lt y)) (x11_lt y)) (x14_lt y)) (xor_lt_256 (xor_lt_256 (xor_lt_256 (x0_lt y) (t2_lt y)) (x11_lt y)) (x14_lt y)) (xor_lt_256 (xor_lt_256 (xor_lt_256 (x1_lt y) (t3_lt y)) (x10_lt y)) (x15_lt y)) (xor_lt_256 (xor_lt_256 (xor_lt_256 (t0_lt y) (x2_lt y)) (x9_lt y)) (x12_lt y)) (xor_lt_256 (xor_lt_256 (xor_lt_256 (t1_lt y) (x3_lt y)) (x8_lt y)) (x13_lt y))

theorem x8_A (y : aria_u128_t) : x8 (aria_A y) = t0 y ^^^ x1 y ^^^ x4 y ^^^ x15 y := by
  simp only [x8, aria_A_right]
  exact ex0 (xor_lt_256 (xor_lt_256 (xor_lt_256 (t0_lt y) (x1_lt y)) (x4_lt y)) (x15_lt y)) (xor_lt_256 (xor_lt_256 (xor_lt_256 (x0_lt y) (t1_lt y)) (x5_lt y)) (x14_lt y)) (xor_lt_256 (xor_lt_256 (xor_lt_256 (t2_lt y) (x3_lt y)) (x6_lt y)) (x13_lt y)) (xor_lt_256 (xor_lt_256 (xor_lt_256 (x2_lt y) (t3_lt y)) (x7_lt y)) (x12_lt y)) (xor_lt_256 (xor_lt_256 (xor_lt_256 (t1_lt y) (x2_lt y)) (x7_lt y)) (x9_lt y)) (xor_lt_256 (xor_lt_256 (xor_lt_256 (t0_lt y) (x3_lt y)) (x6_lt y)) (x8_lt y)) (xor_lt_256 (xor_lt_256 (xor_lt_256 (x0_lt y) (t3_lt y)) (x5_lt y)) (x11_lt y)) (xor_lt_256 (xor_lt_256 (xor_lt_256 (x1_lt y) (t2_lt y)) (x4_lt y)) (x10_lt y))

theorem x9_A (y : aria_u128_t) : x9 (aria_A y) = x0 y ^^^ t1 y ^^^ x5 y ^^^ x14 y := by
  simp only [x9, aria_A_right]
  exact ex1 (xor_lt_256 (xor_lt_256 (xor_lt_256 (t0_lt y) (x1_lt y)) (x4_lt y)) (x15_lt y)) (xor_lt_256 (xor_lt_256 (xor_lt_256 (x0_lt y) (t1_lt y)) (x5_lt y)) (x14_lt y)) (xor_lt_256 (xor_lt_256 (xor_lt_256 (t2_lt y) (x3_lt y)) (x6_lt y)) (x13_lt y)) (xor_lt_256 (xor_lt_256 (xor_lt_256 (x2_lt y) (t3_lt y)) (x7_lt y)) (x12_lt y)) (xor_lt_256 (xor_lt_256 (xor_lt_256 (t1_lt y) (x2_lt y)) (x7_lt y)) (x9_lt y)) (xor_lt_256 (xor_lt_256 (xor_lt_256 (t0_lt y) (x3_lt y)) (x6_lt y)) (x8_lt y)) (xor_lt_256 (xor_lt_256 (xor_lt_256 (x0_lt y) (t3_lt y)) (x5_lt y)) (x11_lt y)) (xor_lt_256 (xor_lt_256 (xor_lt_256 (x1_lt y) (t2_lt y)) (x4_lt y)) (x10_lt y))

theorem x10_A (y : aria_u128_t) : x10 (aria_A y) = t2 y ^^^ x3 y ^^^ x6 y ^^^ x13 y := by
  simp only [x10, aria_A_right]
  exact ex2 (xor_lt_256 (xor_lt_256 (xor_lt_256 (t0_lt y) (x1_lt y)) (x4_lt y)) (x15_lt y)) (xor_lt_256 (xor_lt_256 (xor_lt_256 (x0_lt y) (t1_lt y)) (x5_lt y)) (x14_lt y)) (xor_lt_256 (xor_lt_256 (xor_lt_256 (t2_lt y) (x3_lt y)) (x6_lt y)) (x13_lt y)) (xor_lt_256 (xor_lt_256 (xor_lt_256 (x2_lt y) (t3_lt y)) (x7_lt y)) (x12_lt y)) (xor_lt_256 (xor_lt_256 (xor_lt_256 (t1_lt y) (x2_lt y)) (x7_lt y)) (x9_lt y)) (xor_lt_256 (xor_lt_256 (xor_lt_256 (t0_lt y) (x3_lt y)) (x6_lt y)) (x8_lt y)) (xor_lt_256 (xor_lt_256 (xor_lt_256 (x0_lt y) (t3_lt y)) (x5_lt y)) (x11_lt y)) (xor_lt_256 (xor_lt_256 (xor_lt_256 (x1_lt y) (t2_lt y)) (x4_lt y)) (x10_lt y))

theorem x11_A (y : aria_u128_t) : x11 (aria_A y) = x2 y ^^^ t3 y ^^^ x7 y ^^^ x12 y := by
  simp only [x11, aria_A_right]
  exact ex3 (xor_lt_256 (xor_lt_256 (xor_lt_256 (t0_lt y) (x1_lt y)) (x4_lt y)) (x15_lt y)) (xor_lt_256 (xor_lt_256 (xor_lt_256 (x0_lt y) (t1_lt y)) (x5_lt y)) (x14_lt y)) (xor_lt_256 (xor_lt_256 (xor_lt_256 (t2_lt y) (x3_lt y)) (x6_lt y)) (x13_lt y)) (xor_lt_256 (xor_lt_256 (xor_lt_256 (x2_lt y) (t3_lt y)) (x7_lt y)) (x12_lt y)) (xor_lt_256 (xor_lt_256 (xor_lt_256 (t1_lt y) (x2_lt y)) (x7_lt y)) (x9_lt y)) (xor_lt_256 (xor_lt_256 (xor_lt_256 (t0_lt y) (x3_lt y)) (x6_lt y)) (x8_lt y)) (xor_lt_256 (xor_lt_256 (xor_lt_256 (x0_lt y) (t3_lt y)) (x5_lt y)) (x11_lt y)) (xor_lt_256 (xor_lt_256 (xor_lt_256 (x1_lt y) (t2_lt y)) (x4_lt y)) (x10_lt y))

theorem x12_A (y : aria_u128_t) : x12 (aria_A y) = t1 y ^^^ x2 y ^^^ x7 y ^^^ x9 y := by
  simp only [x12, aria_A_right]
  exact ex4 (xor_lt_256 (xor_lt_256 (xor_lt_256 (t0_lt y) (x1_lt y)) (x4_lt y)) (x15_lt y)) (xor_lt_256 (xor_lt_256 (xor_lt_256 (x0_lt y) (t1_lt y)) (x5_lt y)) (x14_lt y)) (xor_lt_256 (xor_lt_256 (xor_lt_256 (t2_lt y) (x3_lt y)) (x6_lt y)) (x13_lt y)) (xor_lt_256 (xor_lt_256 (xor_lt_256 (x2_lt y) (t3_lt y)) (x7_lt y)) (x12_lt y)) (xor_lt_256 (xor_lt_256 (xor_lt_256 (t1_lt y) (x2_lt y)) (x7_lt y)) (x9_lt y)) (xor_lt_256 (xor_lt_256 (xor_lt_256 (t0_lt y) (x3_lt y)) (x6_lt y)) (x8_lt y)) (xor_lt_256 (xor_lt_256 (xor_lt_256 (x0_lt y) (t3_lt y)) (x5_lt y)) (x11_lt y)) (xor_lt_256 (xor_lt_256 (xor_lt_256 (x1_lt y) (t2_lt y)) (x4_lt y)) (x10_lt y))

theorem x13_A (y : aria_u128_t) : x13 (aria_A y) = t0 y ^^^ x3 y ^^^ x6 y ^^^ x8 y := by
  simp only [x13, aria_A_right]
  exact ex5 (xor_lt_256 (xor_lt_256 (xor_lt_256 (t0_lt y) (x1_lt y)) (x4_lt y)) (x15_lt y)) (xor_lt_256 (xor_lt_256 (xor_lt_256 (x0_lt y) (t1_lt y)) (x5_lt y)) (x14_lt y)) (xor_lt_256 (xor_lt_256 (xor_lt_256 (t2_lt y) (x3_lt y)) (x6_lt y)) (x13_lt y)) (xor_lt_256 (xor_lt_256 (xor_lt_256 (x2_lt y) (t3_lt y)) (x7_lt y)) (x12_lt y)) (xor_lt_256 (xor_lt_256 (xor_lt_256 (t1_lt y) (x2_lt y)) (x7_lt y)) (x9_lt y)) (xor_lt_256 (xor_lt_256 (xor_lt_256 (t0_lt y) (x3_lt y)) (x6_lt y)) (x8_lt y)) (xor_lt_256 (xor_lt_256 (xor_lt_256 (x0_lt y) (t3_lt y)) (x5_lt y)) (x11_lt y)) (xor_lt_256 (xor_lt_256 (xor_lt_256 (x1_lt y) (t2_lt y)) (x4_lt y)) (x10_lt y))

theorem x14_A (y : aria_u128_t) : x14 (aria_A y) = x0 y ^^^ t3 y ^^^ x5 y ^^^ x11 y := by
  simp only [x14, aria_A_right]
  exact ex6 (xor_lt_256 (xor_lt_256 (xor_lt_256 (t0_lt y) (x1_lt y)) (x4_lt y)) (x15_lt y)) (xor_lt_256 (xor_lt_256 (xor_lt_256 (x0_lt y) (t1_lt y)) (x5_lt y)) (x14_lt y)) (xor_lt_256 (xor_lt_256 (xor_lt_256 (t2_lt y) (x3_lt y)) (x6_lt y)) (x13_lt y)) (xor_lt_256 (xor_lt_256 (xor_lt_256 (x2_lt y) (t3_lt y)) (x7_lt y)) (x12_lt y)) (xor_lt_256 (xor_lt_256 (xor_lt_256 (t1_lt y) (x2_lt y)) (x7_lt y)) (x9_lt y)) (xor_lt_256 (xor_lt_256 (xor_lt_256 (t0_lt y) (x3_lt y)) (x6_lt y)) (x8_lt y)) (xor_lt_256 (xor_lt_256 (xor_lt_256 (x0_lt y) (t3_lt y)) (x5_lt y)) (x11_lt y)) (xor_lt_256 (xor_lt_256 (xor_lt_256 (x1_lt y) (t2_lt y)) (x4_lt y)) (x10_lt y))

theorem x15_A (y : aria_u128_t) : x15 (aria_A y) = x1 y ^^^ t2 y ^^^ x4 y ^^^ x10 y := by
  simp only [x15, aria_A_right]
  exact ex7 (xor_lt_256 (xor_lt_256 (xor_lt_256 (t0_lt y) (x1_lt y)) (x4_lt y)) (x15_lt y)) (xor_lt_256 (xor_lt_256 (xor_lt_256 (x0_lt y) (t1_lt y)) (x5_lt y)) (x14_lt y)) (xor_lt_256 (xor_lt_256 (xor_lt_256 (t2_lt y) (x3_lt y)) (x6_lt y)) (x13_lt y)) (xor_lt_256 (xor_lt_256 (xor_lt_256 (x2_lt y) (t3_lt y)) (x7_lt y)) (x12_lt y)) (xor_lt_256 (xor_lt_256 (xor_lt_256 (t1_lt y) (x2_lt y)) (x7_lt y)) (x9_lt y)) (xor_lt_256 (xor_lt_256 (xor_lt_256 (t0_lt y) (x3_lt y)) (x6_lt y)) (x8_lt y)) (xor_lt_256 (xor_lt_256 (xor_lt_256 (x0_lt y) (t3_lt y)) (x5_lt y)) (x11_lt y)) (xor_lt_256 (xor_lt_256 (xor_lt_256 (x1_lt y) (t2_lt y)) (x4_lt y)) (x10_lt y))

theorem x0_SL1 (y : aria_u128_t) : x0 (aria_SL1 y) = SB1.getD (x0 y) 0 := by
  simp only [x0, aria_SL1_left]
  exact ex0 (SB1_getD_lt _) (SB2_getD_lt _) (SB3_getD_lt _) (SB4_getD_lt _) (SB1_getD_lt _) (SB2_getD_lt _) (SB3_getD_lt _) (SB4_getD_lt _)

theorem x1_SL1 (y : aria_u128_t) : x1 (aria_SL1 y) = SB2.getD (x1 y) 0 := by
  simp only [x1, aria_SL1_left]
  exact ex1 (SB1_getD_lt _) (SB2_getD_lt _) (SB3_getD_lt _) (SB4_getD_lt _) (SB1_getD_lt _) (SB2_getD_lt _) (SB3_getD_lt _) (SB4_getD_lt _)

theorem x2_SL1 (y : aria_u128_t) : x2 (aria_SL1 y) = SB3.getD (x2 y) 0 := by
  simp only [x2, aria_SL1_left]
  exact ex2 (SB1_getD_lt _) (SB2_getD_lt _) (SB3_getD_lt _) (SB4_getD_lt _) (SB1_getD_lt _) (SB2_getD_lt _) (SB3_getD_lt _) (SB4_getD_lt _)

theorem x3_SL1 (y : aria_u128_t) : x3 (aria_SL1 y) = SB4.getD (x3 y) 0 := by
  simp only [x3, aria_SL1_left]
  exact ex3 (SB1_getD_lt _) (SB2_getD_lt _) (SB3_getD_lt _) (SB4_getD_lt _) (SB1_getD_lt _) (SB2_getD_lt _) (SB3_getD_lt _) (SB4_getD_lt _)

theorem x4_SL1 (y : aria_u128_t) : x4 (aria_SL1 y) = SB1.getD (x4 y) 0 := by
  simp only [x4, aria_SL1_left]
  exact ex4 (SB1_getD_lt _) (SB2_getD_lt _) (SB3_getD_lt _) (SB4_getD_lt _) (SB1_getD_lt _) (SB2_getD_lt _) (SB3_getD_lt _) (SB4_getD_lt _)

theorem x5_SL1 (y : aria_u128_t) : x5 (aria_SL1 y) = SB2.getD (x5 y) 0 := by
  simp only [x5, aria_SL1_left]
  exact ex5 (SB1_getD_lt _) (SB2_getD_lt _) (SB3_getD_lt _) (SB4_getD_lt _) (SB1_getD_lt _) (SB2_getD_lt _) (SB3_getD_lt _) (SB4_getD_lt _)

theorem x6_SL1 (y : aria_u128_t) : x6 (aria_SL1 y) = SB3.getD (x6 y) 0 := by
  simp only [x6, aria_SL1_left]
  exact ex6 (SB1_getD_lt _) (SB2_getD_lt _) (SB3_getD_lt _) (SB4_getD_lt _) (SB1_getD_lt _) (SB2_getD_lt _) (SB3_getD_lt _) (SB4_getD_lt _)

theorem x7_SL1 (y : aria_u128_t) : x7 (aria_SL1 y) = SB4.getD (x7 y) 0 := by
  simp only [x7, aria_SL1_left]
  exact ex7 (SB1_getD_lt _) (SB2_getD_lt _) (SB3_getD_lt _) (SB4_getD_lt _) (SB1_getD_lt _) (SB2_getD_lt _) (SB3_getD_lt _) (SB4_getD_lt _)

theorem x8_SL1 (y : aria_u128_t) : x8 (aria_SL1 y) = SB1.getD (x8 y) 0 := by
  simp only [x8, aria_SL1_right]
  exact ex0 (SB1_getD_lt _) (SB2_getD_lt _) (SB3_getD_lt _) (SB4_getD_lt _) (SB1_getD_lt _) (SB2_getD_lt _) (SB3_getD_lt _) (SB4_getD_lt _)

theorem x9_SL1 (y : aria_u128_t) : x9 (aria_SL1 y) = SB2.getD (x9 y) 0 := by
  simp only [x9, aria_SL1_right]
  exact ex1 (SB1_getD_lt _) (SB2_getD_lt _) (SB3_getD_lt _) (SB4_getD_lt _) (SB1_getD_lt _) (SB2_getD_lt _) (SB3_getD_lt _) (SB4_getD_lt _)

theorem x10_SL1 (y : aria_u128_t) : x10 (aria_SL1 y) = SB3.getD (x10 y) 0 := by
  simp only [x10, aria_SL1_right]
  exact ex2 (SB1_getD_lt _) (SB2_getD_lt _) (SB3_getD_lt _) (SB4_getD_lt _) (SB1_getD_lt _) (SB2_getD_lt _) (SB3_getD_lt _) (SB4_getD_lt _)

theorem x11_SL1 (y : aria_u128_t) : x11 (aria_SL1 y) = SB4.getD (x11 y) 0 := by
  simp only [x11, aria_SL1_right]
  exact ex3 (SB1_getD_lt _) (SB2_getD_lt _) (SB3_getD_lt _) (SB4_getD_lt _) (SB1_getD_lt _) (SB2_getD_lt _) (SB3_getD_lt _) (SB4_getD_lt _)

theorem x12_SL1 (y : aria_u128_t) : x12 (aria_SL1 y) = SB1.getD (x12 y) 0 := by
  simp only [x12, aria_SL1_right]
  exact ex4 (SB1_getD_lt _) (SB2_getD_lt _) (SB3_getD_lt _) (SB4_getD_lt _) (SB1_getD_lt _) (SB2_getD_lt _) (SB3_getD_lt _) (SB4_getD_lt _)

theorem x13_SL1 (y : aria_u128_t) : x13 (aria_SL1 y) = SB2.getD (x13 y) 0 := by
  simp only [x13, aria_SL1_right]
  exact ex5 (SB1_getD_lt _) (SB2_getD_lt _) (SB3_getD_lt _) (SB4_getD_lt _) (SB1_getD_lt _) (SB2_getD_lt _) (SB3_getD_lt _) (SB4_getD_lt _)

theorem x14_SL1 (y : aria_u128_t) : x14 (aria_SL1 y) = SB3.getD (x14 y) 0 := by
  simp only [x14, aria_SL1_right]
  exact ex6 (SB1_getD_lt _) (SB2_getD_lt _) (SB3_getD_lt _) (SB4_getD_lt _) (SB1_getD_lt _) (SB2_getD_lt _) (SB3_getD_lt _) (SB4_getD_lt _)

theorem x15_SL1 (y : aria_u128_t) : x15 (aria_SL1 y) = SB4.getD (x15 y) 0 := by
  simp only [x15, aria_SL1_right]
  exact ex7 (SB1_getD_lt _) (SB2_getD_lt _) (SB3_getD_lt _) (SB4_getD_lt _) (SB1_getD_lt _) (SB2_getD_lt _) (SB3_getD_lt _) (SB4_getD_lt _)

theorem x0_SL2 (y : aria_u128_t) : x0 (aria_SL2 y) = SB3.getD (x0 y) 0 := by
  simp only [x0, aria_SL2_left]
  exact ex0 (SB3_getD_lt _) (SB4_getD_lt _) (SB1_getD_lt _) (SB2_getD_lt _) (SB3_getD_lt _) (SB4_getD_lt _) (SB1_getD_lt _) (SB2_getD_lt _)

theorem x1_SL2 (y : aria_u128_t) : x1 (aria_SL2 y) = SB4.getD (x1 y) 0 := by
  simp only [x1, aria_SL2_left]
  exact ex1 (SB3_getD_lt _) (SB4_getD_lt _) (SB1_getD_lt _) (SB2_getD_lt _) (SB3_getD_lt _) (SB4_getD_lt _) (SB1_getD_lt _) (SB2_getD_lt _)

theorem x2_SL2 (y : aria_u128_t) : x2 (aria_SL2 y) = SB1.getD (x2 y) 0 := by
  simp only [x2, aria_SL2_left]
  exact ex2 (SB3_getD_lt _) (SB4_getD_lt _) (SB1_getD_lt _) (SB2_getD_lt _) (SB3_getD_lt _) (SB4_getD_lt _) (SB1_getD_lt _) (SB2_getD_lt _)

theorem x3_SL2 (y : aria_u128_t) : x3 (aria_SL2 y) = SB2.getD (x3 y) 0 := by
  simp only [x3, aria_SL2_left]
  exact ex3 (SB3_getD_lt _) (SB4_getD_lt _) (SB1_getD_lt _) (SB2_getD_lt _) (SB3_getD_lt _) (SB4_getD_lt _) (SB1_getD_lt _) (SB2_getD_lt _)

theorem x4_SL2 (y : aria_u128_t) : x4 (aria_SL2 y) = SB3.getD (x4 y) 0 := by
  simp only [x4, aria_SL2_left]
  exact ex4 (SB3_getD_lt _) (SB4_getD_lt _) (SB1_getD_lt _) (SB2_getD_lt _) (SB3_getD_lt _) (SB4_getD_lt _) (SB1_getD_lt _) (SB2_getD_lt _)

theorem x5_SL2 (y : aria_u128_t) : x5 (aria_SL2 y) = SB4.getD (x5 y) 0 := by
  simp only [x5, aria_SL2_left]
  exact ex5 (SB3_getD_lt _) (SB4_getD_lt _) (SB1_getD_lt _) (SB2_getD_lt _) (SB3_getD_lt _) (SB4_getD_lt _) (SB1_getD_lt _) (SB2_getD_lt _)

theorem x6_SL2 (y : aria_u128_t) : x6 (aria_SL2 y) = SB1.getD (x6 y) 0 := by
  simp only [x6, aria_SL2_left]
  exact ex6 (SB3_getD_lt _) (SB4_getD_lt _) (SB1_getD_lt _) (SB2_getD_lt _) (SB3_getD_lt _) (SB4_getD_lt _) (SB1_getD_lt _) (SB2_getD_lt _)

theorem x7_SL2 (y : aria_u128_t) : x7 (aria_SL2 y) = SB2.getD (x7 y) 0 := by
  simp only [x7, aria_SL2_left]
  exact ex7 (SB3_getD_lt _) (SB4_getD_lt _) (SB1_getD_lt _) (SB2_getD_lt _) (SB3_getD_lt _) (SB4_getD_lt _) (SB1_getD_lt _) (SB2_getD_lt _)

theorem x8_SL2 (y : aria_u128_t) : x8 (aria_SL2 y) = SB3.getD (x8 y) 0 := by
  simp only [x8, aria_SL2_right]
  exact ex0 (SB3_getD_lt _) (SB4_getD_lt _) (SB1_getD_lt _) (SB2_getD_lt _) (SB3_getD_lt _) (SB4_getD_lt _) (SB1_getD_lt _) (SB2_getD_lt _)

theorem x9_SL2 (y : aria_u128_t) : x9 (aria_SL2 y) = SB4.getD (x9 y) 0 := by
  simp only [x9, aria_SL2_right]
  exact ex1 (SB3_getD_lt _) (SB4_getD_lt _) (SB1_getD_lt _) (SB2_getD_lt _) (SB3_getD_lt _) (SB4_getD_lt _) (SB1_getD_lt _) (SB2_getD_lt _)

theorem x10_SL2 (y : aria_u128_t) : x10 (aria_SL2 y) = SB1.getD (x10 y) 0 := by
  simp only [x10, aria_SL2_right]
  exact ex2 (SB3_getD_lt _) (SB4_getD_lt _) (SB1_getD_lt _) (SB2_getD_lt _) (SB3_getD_lt _) (SB4_getD_lt _) (SB1_getD_lt _) (SB2_getD_lt _)

theorem x11_SL2 (y : aria_u128_t) : x11 (aria_SL2 y) = SB2.getD (x11 y) 0 := by
  simp only [x11, aria_SL2_right]
  exact ex3 (SB3_getD_lt _) (SB4_getD_lt _) (SB1_getD_lt _) (SB2_getD_lt _) (SB3_getD_lt _) (SB4_getD_lt _) (SB1_getD_lt _) (SB2_getD_lt _)

theorem x12_SL2 (y : aria_u128_t) : x12 (aria_SL2 y) = SB3.getD (x12 y) 0 := by
  simp only [x12, aria_SL2_right]
  exact ex4 (SB3_getD_lt _) (SB4_getD_lt _) (SB1_getD_lt _) (SB2_getD_lt _) (SB3_getD_lt _) (SB4_getD_lt _) (SB1_getD_lt _) (SB2_getD_lt _)

theorem x13_SL2 (y : aria_u128_t) : x13 (aria_SL2 y) = SB4.getD (x13 y) 0 := by
  simp only [x13, aria_SL2_right]
  exact ex5 (SB3_getD_lt _) (SB4_getD_lt _) (SB1_getD_lt _) (SB2_getD_lt _) (SB3_getD_lt _) (SB4_getD_lt _) (SB1_getD_lt _) (SB2_getD_lt _)

theorem x14_SL2 (y : aria_u128_t) : x14 (aria_SL2 y) = SB1.getD (x14 y) 0 := by
  simp only [x14, aria_SL2_right]
  exact ex6 (SB3_getD_lt _) (SB4_getD_lt _) (SB1_getD_lt _) (SB2_getD_lt _) (SB3_getD_lt _) (SB4_getD_lt _) (SB1_getD_lt _) (SB2_getD_lt _)

theorem x15_SL2 (y : aria_u128_t) : x15 (aria_SL2 y) = SB2.getD (x15 y) 0 := by
  simp only [x15, aria_SL2_right]
  exact ex7 (SB3_getD_lt _) (SB4_getD_lt _) (SB1_getD_lt _) (SB2_getD_lt _) (SB3_getD_lt _) (SB4_getD_lt _) (SB1_getD_lt _) (SB2_getD_lt _)

theorem x0_xor (u v : aria_u128_t) : x0 (xor u v) = x0 u ^^^ x0 v := by
  simp only [x0, xor_left, xor_right, xor_shiftRight]

theorem x1_xor (u v : aria_u128_t) : x1 (xor u v) = x1 u ^^^ x1 v := by
  simp only [x1, xor_left, xor_right, xor_shiftRight, Nat.and_xor_distrib_right]

theorem x2_xor (u v : aria_u128_t) : x2 (xor u v) = x2 u ^^^ x2 v := by
  simp only [x2, xor_left, xor_right, xor_shiftRight, Nat.and_xor_distrib_right]

theorem x3_xor (u v : aria_u128_t) : x3 (xor u v) = x3 u ^^^ x3 v := by
  simp only [x3, xor_left, xor_right, xor_shiftRight, Nat.and_xor_distrib_right]

theorem x4_xor (u v : aria_u128_t) : x4 (xor u v) = x4 u ^^^ x4 v := by
  simp only [x4, xor_left, xor_right, xor_shiftRight, Nat.and_xor_distrib_right]

theorem x5_xor (u v : aria_u128_t) : x5 (xor u v) = x5 u ^^^ x5 v := by
  simp only [x5, xor_left, xor_right, xor_shiftRight, Nat.and_xor_distrib_right]

theorem x6_xor (u v : aria_u128_t) : x6 (xor u v) = x6 u ^^^ x6 v := by
  simp only [x6, xor_left, xor_right, xor_shiftRight, Nat.and_xor_distrib_right]

theorem x7_xor (u v : aria_u128_t) : x7 (xor u v) = x7 u ^^^ x7 v := by
  simp only [x7, xor_left, xor_right, xor_shiftRight, Nat.and_xor_distrib_right]

theorem x8_xor (u v : aria_u128_t) : x8 (xor u v) = x8 u ^^^ x8 v := by
  simp only [x8, xor_left, xor_right, xor_shiftRight]

theorem x9_xor (u v : aria_u128_t) : x9 (xor u v) = x9 u ^^^ x9 v := by
  simp only [x9, xor_left, xor_right, xor_shiftRight, Nat.and_xor_distrib_right]

theorem x10_xor (u v : aria_u128_t) : x10 (xor u v) = x10 u ^^^ x10 v := by
  simp only [x10, xor_left, xor_right, xor_shiftRight, Nat.and_xor_distrib_right]

theorem x11_xor (u v : aria_u128_t) : x11 (xor u v) = x11 u ^^^ x11 v := by
  simp only [x11, xor_left, xor_right, xor_shiftRight, Nat.and_xor_distrib_right]

theorem x12_xor (u v : aria_u128_t) : x12 (xor u v) = x12 u ^^^ x12 v := by
  simp only [x12, xor_left, xor_right, xor_shiftRight, Nat.and_xor_distrib_right]

theorem x13_xor (u v : aria_u128_t) : x13 (xor u v) = x13 u ^^^ x13 v := by
  simp only [x13, xor_left, xor_right, xor_shiftRight, Nat.and_xor_distrib_right]

theorem x14_xor (u v : aria_u128_t) : x14 (xor u v) = x14 u ^^^ x14 v := by
  simp only [x14, xor_left, xor_right, xor_shiftRight, Nat.and_xor_distrib_right]

theorem x15_xor (u v : aria_u128_t) : x15 (xor u v) = x15 u ^^^ x15 v := by
  simp only [x15, xor_left, xor_right, xor_shiftRight, Nat.and_xor_distrib_right]


/- The substitution layers are mutually inverse, byte by byte. -/

theorem SL2_SL1 (x : aria_u128_t) : aria_SL2 (aria_SL1 x) = x := by
  apply u128_ext
  · rw [aria_SL2_left]
    simp only [x0_SL1, x1_SL1, x2_SL1, x3_SL1, x4_SL1, x5_SL1, x6_SL1, x7_SL1,
      SB3_SB1h, SB4_SB2h, SB1_SB3h, SB2_SB4h,
      x0_lt, x1_lt, x2_lt, x3_lt, x4_lt, x5_lt, x6_lt, x7_lt]
    exact reassemble_left x
  · rw [aria_SL2_right]
    simp only [x8_SL1, x9_SL1, x10_SL1, x11_SL1, x12_SL1, x13_SL1, x14_SL1, x15_SL1,
      SB3_SB1h, SB4_SB2h, SB1_SB3h, SB2_SB4h,
      x8_lt, x9_lt, x10_lt, x11_lt, x12_lt, x13_lt, x14_lt, x15_lt]
    exact reassemble_right x

theorem SL1_SL2 (x : aria_u128_t) : aria_SL1 (aria_SL2 x) = x := by
  apply u128_ext
  · rw [aria_SL1_left]
    simp only [x0_SL2, x1_SL2, x2_SL2, x3_SL2, x4_SL2, x5_SL2, x6_SL2, x7_SL2,
      SB3_SB1h, SB4_SB2h, SB1_SB3h, SB2_SB4h,
      x0_lt, x1_lt, x2_lt, x3_lt, x4_lt, x5_lt, x6_lt, x7_lt]
    exact reassemble_left x
  · rw [aria_SL1_right]
    simp only [x8_SL2, x9_SL2, x10_SL2, x11_SL2, x12_SL2, x13_SL2, x14_SL2, x15_SL2,
      SB3_SB1h, SB4_SB2h, SB1_SB3h, SB2_SB4h,
      x8_lt, x9_lt, x10_lt, x11_lt, x12_lt, x13_lt, x14_lt, x15_lt]
    exact reassemble_right x

/- The diffusion layer is an involution and commutes with xor. -/

theorem A_A (x : aria_u128_t) : aria_A (aria_A x) = x := by
  apply u128_ext
  · rw [aria_A_left, ← reassemble_left x]
    simp only [t0, t1, t2, t3]
    simp only [x0_A, x1_A, x2_A, x3_A, x4_A, x5_A, x6_A, x7_A, x8_A, x9_A, x10_A, x11_A,
      x12_A, x13_A, x14_A, x15_A]
    apply assemble8_congr <;>
    · simp only [t0, t1, t2, t3]
      generalize x0 x = xb0
      generalize x1 x = xb1
      generalize x2 x = xb2
      generalize x3 x = xb3
      generalize x4 x = xb4
      generalize x5 x = xb5
      generalize x6 x = xb6
      generalize x7 x = xb7
      generalize x8 x = xb8
      generalize x9 x = xb9
      generalize x10 x = xb10
      generalize x11 x = xb11
      generalize x12 x = xb12
      generalize x13 x = xb13
      generalize x14 x = xb14
      generalize x15 x = xb15
      simp only [Nat.xor_assoc, Nat.xor_comm, nat_xor_left_comm, nat_xor_cancel_left,
        Nat.xor_self, Nat.xor_zero, Nat.zero_xor]
  · rw [aria_A_right, ← reassemble_right x]
    simp only [t0, t1, t2, t3]
    simp only [x0_A, x1_A, x2_A, x3_A, x4_A, x5_A, x6_A, x7_A, x8_A, x9_A, x10_A, x11_A,
      x12_A, x13_A, x14_A, x15_A]
    apply assemble8_congr <;>
    · simp only [t0, t1, t2, t3]
      generalize x0 x = xb0
      generalize x1 x = xb1
      generalize x2 x = xb2
      generalize x3 x = xb3
      generalize x4 x = xb4
      generalize x5 x = xb5
      generalize x6 x = xb6
      generalize x7 x = xb7
      generalize x8 x = xb8
      generalize x9 x = xb9
      generalize x10 x = xb10
      generalize x11 x = xb11
      generalize x12 x = xb12
      generalize x13 x = xb13
      generalize x14 x = xb14
      generalize x15 x = xb15
      simp only [Nat.xor_assoc, Nat.xor_comm, nat_xor_left_comm, nat_xor_cancel_left,
        Nat.xor_self, Nat.xor_zero, Nat.zero_xor]

theorem xor_A (u v : aria_u128_t) : xor (aria_A u) (aria_A v) = aria_A (xor u v) := by
  apply u128_ext
  · rw [xor_left, aria_A_left, aria_A_left, aria_A_left]
    rw [assemble8_xor
      (xor_lt_256 (xor_lt_256 (xor_lt_256 (t3_lt u) (x6_lt u)) (x8_lt u)) (x13_lt u))
      (xor_lt_256 (xor_lt_256 (xor_lt_256 (t2_lt u) (x7_lt u)) (x9_lt u)) (x12_lt u))
      (xor_lt_256 (xor_lt_256 (xor_lt_256 (t1_lt u) (x4_lt u)) (x10_lt u)) (x15_lt u))
      (xor_lt_256 (xor_lt_256 (xor_lt_256 (t0_lt u) (x5_lt u)) (x11_lt u)) (x14_lt u))
      (xor_lt_256 (xor_lt_256 (xor_lt_256 (x0_lt u) (t2_lt u)) (x11_lt u)) (x14_lt u))
      (xor_lt_256 (xor_lt_256 (xor_lt_256 (x1_lt u) (t3_lt u)) (x10_lt u)) (x15_lt u))
      (xor_lt_256 (xor_lt_256 (xor_lt_256 (t0_lt u) (x2_lt u)) (x9_lt u)) (x12_lt u))
      (xor_lt_256 (xor_lt_256 (xor_lt_256 (t1_lt u) (x3_lt u)) (x8_lt u)) (x13_lt u))
      (xor_lt_256 (xor_lt_256 (xor_lt_256 (t3_lt v) (x6_lt v)) (x8_lt v)) (x13_lt v))
      (xor_lt_256 (xor_lt_256 (xor_lt_256 (t2_lt v) (x7_lt v)) (x9_lt v)) (x12_lt v))
      (xor_lt_256 (xor_lt_256 (xor_lt_256 (t1_lt v) (x4_lt v)) (x10_lt v)) (x15_lt v))
      (xor_lt_256 (xor_lt_256 (xor_lt_256 (t0_lt v) (x5_lt v)) (x11_lt v)) (x14_lt v))
      (xor_lt_256 (xor_lt_256 (xor_lt_256 (x0_lt v) (t2_lt v)) (x11_lt v)) (x14_lt v))
      (xor_lt_256 (xor_lt_256 (xor_lt_256 (x1_lt v) (t3_lt v)) (x10_lt v)) (x15_lt v))
      (xor_lt_256 (xor_lt_256 (xor_lt_256 (t0_lt v) (x2_lt v)) (x9_lt v)) (x12_lt v))
      (xor_lt_256 (xor_lt_256 (xor_lt_256 (t1_lt v) (x3_lt v)) (x8_lt v)) (x13_lt v))]
    simp only [t0, t1, t2, t3, x0_xor, x1_xor, x2_xor, x3_xor, x4_xor, x5_xor, x6_xor, x7_xor,
      x8_xor, x9_xor, x10_xor, x11_xor, x12_xor, x13_xor, x14_xor, x15_xor]
    apply assemble8_congr <;>
    · generalize x0 u = ub0
      generalize x1 u = ub1
      generalize x2 u = ub2
      generalize x3 u = ub3
      generalize x4 u = ub4
      generalize x5 u = ub5
      generalize x6 u = ub6
      generalize x7 u = ub7
      generalize x8 u = ub8
      generalize x9 u = ub9
      generalize x10 u = ub10
      generalize x11 u = ub11
      generalize x12 u = ub12
      generalize x13 u = ub13
      generalize x14 u = ub14
      generalize x15 u = ub15
      generalize x0 v = vb0
      generalize x1 v = vb1
      generalize x2 v = vb2
      generalize x3 v = vb3
      generalize x4 v = vb4
      generalize x5 v = vb5
      generalize x6 v = vb6
      generalize x7 v = vb7
      generalize x8 v = vb8
      generalize x9 v = vb9
      generalize x10 v = vb10
      generalize x11 v = vb11
      generalize x12 v = vb12
      generalize x13 v = vb13
      generalize x14 v = vb14
      generalize x15 v = vb15
      simp only [Nat.xor_assoc, Nat.xor_comm, nat_xor_left_comm, nat_xor_cancel_left,
        Nat.xor_self, Nat.xor_zero, Nat.zero_xor]
  · rw [xor_right, aria_A_right, aria_A_right, aria_A_right]
    rw [assemble8_xor
      (xor_lt_256 (xor_lt_256 (xor_lt_256 (t0_lt u) (x1_lt u)) (x4_lt u)) (x15_lt u))
      (xor_lt_256 (xor_lt_256 (xor_lt_256 (x0_lt u) (t1_lt u)) (x5_lt u)) (x14_lt u))
      (xor_lt_256 (xor_lt_256 (xor_lt_256 (t2_lt u) (x3_lt u)) (x6_lt u)) (x13_lt u))
      (xor_lt_256 (xor_lt_256 (xor_lt_256 (x2_lt u) (t3_lt u)) (x7_lt u)) (x12_lt u))
      (xor_lt_256 (xor_lt_256 (xor_lt_256 (t1_lt u) (x2_lt u)) (x7_lt u)) (x9_lt u))
      (xor_lt_256 (xor_lt_256 (xor_lt_256 (t0_lt u) (x3_lt u)) (x6_lt u)) (x8_lt u))
      (xor_lt_256 (xor_lt_256 (xor_lt_256 (x0_lt u) (t3_lt u)) (x5_lt u)) (x11_lt u))
      (xor_lt_256 (xor_lt_256 (xor_lt_256 (x1_lt u) (t2_lt u)) (x4_lt u)) (x10_lt u))
      (xor_lt_256 (xor_lt_256 (xor_lt_256 (t0_lt v) (x1_lt v)) (x4_lt v)) (x15_lt v))
      (xor_lt_256 (xor_lt_256 (xor_lt_256 (x0_lt v) (t1_lt v)) (x5_lt v)) (x14_lt v))
      (xor_lt_256 (xor_lt_256 (xor_lt_256 (t2_lt v) (x3_lt v)) (x6_lt v)) (x13_lt v))
      (xor_lt_256 (xor_lt_256 (xor_lt_256 (x2_lt v) (t3_lt v)) (x7_lt v)) (x12_lt v))
      (xor_lt_256 (xor_lt_256 (xor_lt_256 (t1_lt v) (x2_lt v)) (x7_lt v)) (x9_lt v))
      (xor_lt_256 (xor_lt_256 (xor_lt_256 (t0_lt v) (x3_lt v)) (x6_lt v)) (x8_lt v))
      (xor_lt_256 (xor_lt_256 (xor_lt_256 (x0_lt v) (t3_lt v)) (x5_lt v)) (x11_lt v))
      (xor_lt_256 (xor_lt_256 (xor_lt_256 (x1_lt v) (t2_lt v)) (x4_lt v)) (x10_lt v))]
    simp only [t0, t1, t2, t3, x0_xor, x1_xor, x2_xor, x3_xor, x4_xor, x5_xor, x6_xor, x7_xor,
      x8_xor, x9_xor, x10_xor, x11_xor, x12_xor, x13_xor, x14_xor, x15_xor]
    apply assemble8_congr <;>
    · generalize x0 u = ub0
      generalize x1 u = ub1
      generalize x2 u = ub2
      generalize x3 u = ub3
      generalize x4 u = ub4
      generalize x5 u = ub5
      generalize x6 u = ub6
      generalize x7 u = ub7
      generalize x8 u = ub8
      generalize x9 u = ub9
      generalize x10 u = ub10
      generalize x11 u = ub11
      generalize x12 u = ub12
      generalize x13 u = ub13
      generalize x14 u = ub14
      generalize x15 u = ub15
      generalize x0 v = vb0
      generalize x1 v = vb1
      generalize x2 v = vb2
      generalize x3 v = vb3
      generalize x4 v = vb4
      generalize x5 v = vb5
      generalize x6 v = vb6
      generalize x7 v = vb7
      generalize x8 v = vb8
      generalize x9 v = vb9
      generalize x10 v = vb10
      generalize x11 v = vb11
      generalize x12 v = vb12
      generalize x13 v = vb13
      generalize x14 v = vb14
      generalize x15 v = vb15
      simp only [Nat.xor_assoc, Nat.xor_comm, nat_xor_left_comm, nat_xor_cancel_left,
        Nat.xor_self, Nat.xor_zero, Nat.zero_xor]

theorem A_eq_A_direct (x : aria_u128_t) : aria_A x = aria_A_direct x := by
  apply u128_ext
  · rw [aria_A_left, aria_A_direct_left]
    apply assemble8_congr <;>
    · simp only [t0, t1, t2, t3]
      generalize x0 x = xb0
      generalize x1 x = xb1
      generalize x2 x = xb2
      generalize x3 x = xb3
      generalize x4 x = xb4
      generalize x5 x = xb5
      generalize x6 x = xb6
      generalize x7 x = xb7
      generalize x8 x = xb8
      generalize x9 x = xb9
      generalize x10 x = xb10
      generalize x11 x = xb11
      generalize x12 x = xb12
      generalize x13 x = xb13
      generalize x14 x = xb14
      generalize x15 x = xb15
      simp only [Nat.xor_assoc, Nat.xor_comm, nat_xor_left_comm, nat_xor_cancel_left,
        Nat.xor_self, Nat.xor_zero, Nat.zero_xor]
  · rw [aria_A_right, aria_A_direct_right]
    apply assemble8_congr <;>
    · simp only [t0, t1, t2, t3]
      generalize x0 x = xb0
      generalize x1 x = xb1
      generalize x2 x = xb2
      generalize x3 x = xb3
      generalize x4 x = xb4
      generalize x5 x = xb5
      generalize x6 x = xb6
      generalize x7 x = xb7
      generalize x8 x = xb8
      generalize x9 x = xb9
      generalize x10 x = xb10
      generalize x11 x = xb11
      generalize x12 x = xb12
      generalize x13 x = xb13
      generalize x14 x = xb14
      generalize x15 x = xb15
      simp only [Nat.xor_assoc, Nat.xor_comm, nat_xor_left_comm, nat_xor_cancel_left,
        Nat.xor_self, Nat.xor_zero, Nat.zero_xor]

/- Closed forms of the crypt engine and derived decryption keys on explicit
   18-entry round-key arrays; these unfold the fuel loops definitionally. -/

theorem dk_swap_loop_stop (fuel i : Nat) (ek : List aria_u128_t) :
    dk_swap_loop (fuel+1) i i ek = ek := by
  simp [dk_swap_loop]

theorem dstep12_1 (e0 e1 e2 e3 e4 e5 e6 e7 e8 e9 e10 e11 e12 e13 e14 e15 e16 e17 : aria_u128_t) :
    dk_swap_loop 13 2 12 [e13, e13, e2, e3, e4, e5, e6, e7, e8, e9, e10, e11, e12, e1, e14, e15, e16, e17] =
      dk_swap_loop 12 3 11 [e12, e13, aria_A e12, e3, e4, e5, e6, e7, e8, e9, e10, e11, aria_A e2, e1, e14, e15, e16, e17] := by
  simp [dk_swap_loop]

theorem dstep12_2 (e0 e1 e2 e3 e4 e5 e6 e7 e8 e9 e10 e11 e12 e13 e14 e15 e16 e17 : aria_u128_t) :
    dk_swap_loop 12 3 11 [e12, e13, aria_A e12, e3, e4, e5, e6, e7, e8, e9, e10, e11, aria_A e2, e1, e14, e15, e16, e17] =
      dk_swap_loop 11 4 10 [e11, e13, aria_A e12, aria_A e11, e4, e5, e6, e7, e8, e9, e10, aria_A e3, aria_A e2, e1, e14, e15, e16, e17] := by
  simp [dk_swap_loop]

theorem dstep12_3 (e0 e1 e2 e3 e4 e5 e6 e7 e8 e9 e10 e11 e12 e13 e14 e15 e16 e17 : aria_u128_t) :
    dk_swap_loop 11 4 10 [e11, e13, aria_A e12, aria_A e11, e4, e5, e6, e7, e8, e9, e10, aria_A e3, aria_A e2, e1, e14, e15, e16, e17] =
      dk_swap_loop 10 5 9 [e10, e13, aria_A e12, aria_A e11, aria_A e10, e5, e6, e7, e8, e9, aria_A e4, aria_A e3, aria_A e2, e1, e14, e15, e16, e17] := by
  simp [dk_swap_loop]

theorem dstep12_4 (e0 e1 e2 e3 e4 e5 e6 e7 e8 e9 e10 e11 e12 e13 e14 e15 e16 e17 : aria_u128_t) :
    dk_swap_loop 10 5 9 [e10, e13, aria_A e12, aria_A e11, aria_A e10, e5, e6, e7, e8, e9, aria_A e4, aria_A e3, aria_A e2, e1, e14, e15, e16, e17] =
      dk_swap_loop 9 6 8 [e9, e13, aria_A e12, aria_A e11, aria_A e10, aria_A e9, e6, e7, e8, aria_A e5, aria_A e4, aria_A e3, aria_A e2, e1, e14, e15, e16, e17] := by
  simp [dk_swap_loop]

theorem dstep12_5 (e0 e1 e2 e3 e4 e5 e6 e7 e8 e9 e10 e11 e12 e13 e14 e15 e16 e17 : aria_u128_t) :
    dk_swap_loop 9 6 8 [e9, e13, aria_A e12, aria_A e11, aria_A e10, aria_A e9, e6, e7, e8, aria_A e5, aria_A e4, aria_A e3, aria_A e2, e1, e14, e15, e16, e17] =
      dk_swap_loop 8 7 7 [e8, e13, aria_A e12, aria_A e11, aria_A e10, aria_A e9, aria_A e8, e7, aria_A e6, aria_A e5, aria_A e4, aria_A e3, aria_A e2, e1, e14, e15, e16, e17] := by
  simp [dk_swap_loop]

theorem derive12_eq (e0 e1 e2 e3 e4 e5 e6 e7 e8 e9 e10 e11 e12 e13 e14 e15 e16 e17 : aria_u128_t) :
    derive_dk 12 [e0, e1, e2, e3, e4, e5, e6, e7, e8, e9, e10, e11, e12, e13, e14, e15, e16, e17] = [e8, e13, aria_A e12, aria_A e11, aria_A e10, aria_A e9, aria_A e8, aria_A e7, aria_A e6, aria_A e5, aria_A e4, aria_A e3, aria_A e2, e1, e14, e15, e16, e17] := by
  simp only [derive_dk]
  simp
  rw [dstep12_1 e0 e1 e2 e3 e4 e5 e6 e7 e8 e9 e10 e11 e12 e13 e14 e15 e16 e17, dstep12_2 e0 e1 e2 e3 e4 e5 e6 e7 e8 e9 e10 e11 e12 e13 e14 e15 e16 e17, dstep12_3 e0 e1 e2 e3 e4 e5 e6 e7 e8 e9 e10 e11 e12 e13 e14 e15 e16 e17, dstep12_4 e0 e1 e2 e3 e4 e5 e6 e7 e8 e9 e10 e11 e12 e13 e14 e15 e16 e17, dstep12_5 e0 e1 e2 e3 e4 e5 e6 e7 e8 e9 e10 e11 e12 e13 e14 e15 e16 e17]
  rw [dk_swap_loop_stop]
  simp

theorem dstep14_1 (e0 e1 e2 e3 e4 e5 e6 e7 e8 e9 e10 e11 e12 e13 e14 e15 e16 e17 : aria_u128_t) :
    dk_swap_loop 15 2 14 [e15, e15, e2, e3, e4, e5, e6, e7, e8, e9, e10, e11, e12, e13, e14, e1, e16, e17] =
      dk_swap_loop 14 3 13 [e14, e15, aria_A e14, e3, e4, e5, e6, e7, e8, e9, e10, e11, e12, e13, aria_A e2, e1, e16, e17] := by
  simp [dk_swap_loop]

theorem dstep14_2 (e0 e1 e2 e3 e4 e5 e6 e7 e8 e9 e10 e11 e12 e13 e14 e15 e16 e17 : aria_u128_t) :
    dk_swap_loop 14 3 13 [e14, e15, aria_A e14, e3, e4, e5, e6, e7, e8, e9, e10, e11, e12, e13, aria_A e2, e1, e16, e17] =
      dk_swap_loop 13 4 12 [e13, e15, aria_A e14, aria_A e13, e4, e5, e6, e7, e8, e9, e10, e11, e12, aria_A e3, aria_A e2, e1, e16, e17] := by
  simp [dk_swap_loop]

theorem dstep14_3 (e0 e1 e2 e3 e4 e5 e6 e7 e8 e9 e10 e11 e12 e13 e14 e15 e16 e17 : aria_u128_t) :
    dk_swap_loop 13 4 12 [e13, e15, aria_A e14, aria_A e13, e4, e5, e6, e7, e8, e9, e10, e11, e12, aria_A e3, aria_A e2, e1, e16, e17] =
      dk_swap_loop 12 5 11 [e12, e15, aria_A e14, aria_A e13, aria_A e12, e5, e6, e7, e8, e9, e10, e11, aria_A e4, aria_A e3, aria_A e2, e1, e16, e17] := by
  simp [dk_swap_loop]

theorem dstep14_4 (e0 e1 e2 e3 e4 e5 e6 e7 e8 e9 e10 e11 e12 e13 e14 e15 e16 e17 : aria_u128_t) :
    dk_swap_loop 12 5 11 [e12, e15, aria_A e14, aria_A e13, aria_A e12, e5, e6, e7, e8, e9, e10, e11, aria_A e4, aria_A e3, aria_A e2, e1, e16, e17] =
      dk_swap_loop 11 6 10 [e11, e15, aria_A e14, aria_A e13, aria_A e12, aria_A e11, e6, e7, e8, e9, e10, aria_A e5, aria_A e4, aria_A e3, aria_A e2, e1, e16, e17] := by
  simp [dk_swap_loop]

theorem dstep14_5 (e0 e1 e2 e3 e4 e5 e6 e7 e8 e9 e10 e11 e12 e13 e14 e15 e16 e17 : aria_u128_t) :
    dk_swap_loop 11 6 10 [e11, e15, aria_A e14, aria_A e13, aria_A e12, aria_A e11, e6, e7, e8, e9, e10, aria_A e5, aria_A e4, aria_A e3, aria_A e2, e1, e16, e17] =
      dk_swap_loop 10 7 9 [e10, e15, aria_A e14, aria_A e13, aria_A e12, aria_A e11, aria_A e10, e7, e8, e9, aria_A e6, aria_A e5, aria_A e4, aria_A e3, aria_A e2, e1, e16, e17] := by
  simp [dk_swap_loop]

theorem dstep14_6 (e0 e1 e2 e3 e4 e5 e6 e7 e8 e9 e10 e11 e12 e13 e14 e15 e16 e17 : aria_u128_t) :
    dk_swap_loop 10 7 9 [e10, e15, aria_A e14, aria_A e13, aria_A e12, aria_A e11, aria_A e10, e7, e8, e9, aria_A e6, aria_A e5, aria_A e4, aria_A e3, aria_A e2, e1, e16, e17] =
      dk_swap_loop 9 8 8 [e9, e15, aria_A e14, aria_A e13, aria_A e12, aria_A e11, aria_A e10, aria_A e9, e8, aria_A e7, aria_A e6, aria_A e5, aria_A e4, aria_A e3, aria_A e2, e1, e16, e17] := by
  simp [dk_swap_loop]

theorem derive14_eq (e0 e1 e2 e3 e4 e5 e6 e7 e8 e9 e10 e11 e12 e13 e14 e15 e16 e17 : aria_u128_t) :
    derive_dk 14 [e0, e1, e2, e3, e4, e5, e6, e7, e8, e9, e10, e11, e12, e13, e14, e15, e16, e17] = [e9, e15, aria_A e14, aria_A e13, aria_A e12, aria_A e11, aria_A e10, aria_A e9, aria_A e8, aria_A e7, aria_A e6, aria_A e5, aria_A e4, aria_A e3, aria_A e2, e1, e16, e17] := by
  simp only [derive_dk]
  simp
  rw [dstep14_1 e0 e1 e2 e3 e4 e5 e6 e7 e8 e9 e10 e11 e12 e13 e14 e15 e16 e17, dstep14_2 e0 e1 e2 e3 e4 e5 e6 e7 e8 e9 e10 e11 e12 e13 e14 e15 e16 e17, dstep14_3 e0 e1 e2 e3 e4 e5 e6 e7 e8 e9 e10 e11 e12 e13 e14 e15 e16 e17, dstep14_4 e0 e1 e2 e3 e4 e5 e6 e7 e8 e9 e10 e11 e12 e13 e14 e15 e16 e17, dstep14_5 e0 e1 e2 e3 e4 e5 e6 e7 e8 e9 e10 e11 e12 e13 e14 e15 e16 e17, dstep14_6 e0 e1 e2 e3 e4 e5 e6 e7 e8 e9 e10 e11 e12 e13 e14 e15 e16 e17]
  rw [dk_swap_loop_stop]
  simp

theorem dstep16_1 (e0 e1 e2 e3 e4 e5 e6 e7 e8 e9 e10 e11 e12 e13 e14 e15 e16 e17 : aria_u128_t) :
    dk_swap_loop 17 2 16 [e17, e17, e2, e3, e4, e5, e6, e7, e8, e9, e10, e11, e12, e13, e14, e15, e16, e1] =
      dk_swap_loop 16 3 15 [e16, e17, aria_A e16, e3, e4, e5, e6, e7, e8, e9, e10, e11, e12, e13, e14, e15, aria_A e2, e1] := by
  simp [dk_swap_loop]

theorem dstep16_2 (e0 e1 e2 e3 e4 e5 e6 e7 e8 e9 e10 e11 e12 e13 e14 e15 e16 e17 : aria_u128_t) :
    dk_swap_loop 16 3 15 [e16, e17, aria_A e16, e3, e4, e5, e6, e7, e8, e9, e10, e11, e12, e13, e14, e15, aria_A e2, e1] =
      dk_swap_loop 15 4 14 [e15, e17, aria_A e16, aria_A e15, e4, e5, e6, e7, e8, e9, e10, e11, e12, e13, e14, aria_A e3, aria_A e2, e1] := by
  simp [dk_swap_loop]

theorem dstep16_3 (e0 e1 e2 e3 e4 e5 e6 e7 e8 e9 e10 e11 e12 e13 e14 e15 e16 e17 : aria_u128_t) :
    dk_swap_loop 15 4 14 [e15, e17, aria_A e16, aria_A e15, e4, e5, e6, e7, e8, e9, e10, e11, e12, e13, e14, aria_A e3, aria_A e2, e1] =
      dk_swap_loop 14 5 13 [e14, e17, aria_A e16, aria_A e15, aria_A e14, e5, e6, e7, e8, e9, e10, e11, e12, e13, aria_A e4, aria_A e3, aria_A e2, e1] := by
  simp [dk_swap_loop]

theorem dstep16_4 (e0 e1 e2 e3 e4 e5 e6 e7 e8 e9 e10 e11 e12 e13 e14 e15 e16 e17 : aria_u128_t) :
    dk_swap_loop 14 5 13 [e14, e17, aria_A e16, aria_A e15, aria_A e14, e5, e6, e7, e8, e9, e10, e11, e12, e13, aria_A e4, aria_A e3, aria_A e2, e1] =
      dk_swap_loop 13 6 12 [e13, e17, aria_A e16, aria_A e15, aria_A e14, aria_A e13, e6, e7, e8, e9, e10, e11, e12, aria_A e5, aria_A e4, aria_A e3, aria_A e2, e1] := by
  simp [dk_swap_loop]

theorem dstep16_5 (e0 e1 e2 e3 e4 e5 e6 e7 e8 e9 e10 e11 e12 e13 e14 e15 e16 e17 : aria_u128_t) :
    dk_swap_loop 13 6 12 [e13, e17, aria_A e16, aria_A e15, aria_A e14, aria_A e13, e6, e7, e8, e9, e10, e11, e12, aria_A e5, aria_A e4, aria_A e3, aria_A e2, e1] =
      dk_swap_loop 12 7 11 [e12, e17, aria_A e16, aria_A e15, aria_A e14, aria_A e13, aria_A e12, e7, e8, e9, e10, e11, aria_A e6, aria_A e5, aria_A e4, aria_A e3, aria_A e2, e1] := by
  simp [dk_swap_loop]

theorem dstep16_6 (e0 e1 e2 e3 e4 e5 e6 e7 e8 e9 e10 e11 e12 e13 e14 e15 e16 e17 : aria_u128_t) :
    dk_swap_loop 12 7 11 [e12, e17, aria_A e16, aria_A e15, aria_A e14, aria_A e13, aria_A e12, e7, e8, e9, e10, e11, aria_A e6, aria_A e5, aria_A e4, aria_A e3, aria_A e2, e1] =
      dk_swap_loop 11 8 10 [e11, e17, aria_A e16, aria_A e15, aria_A e14, aria_A e13, aria_A e12, aria_A e11, e8, e9, e10, aria_A e7, aria_A e6, aria_A e5, aria_A e4, aria_A e3, aria_A e2, e1] := by
  simp [dk_swap_loop]

theorem dstep16_7 (e0 e1 e2 e3 e4 e5 e6 e7 e8 e9 e10 e11 e12 e13 e14 e15 e16 e17 : aria_u128_t) :
    dk_swap_loop 11 8 10 [e11, e17, aria_A e16, aria_A e15, aria_A e14, aria_A e13, aria_A e12, aria_A e11, e8, e9, e10, aria_A e7, aria_A e6, aria_A e5, aria_A e4, aria_A e3, aria_A e2, e1] =
      dk_swap_loop 10 9 9 [e10, e17, aria_A e16, aria_A e15, aria_A e14, aria_A e13, aria_A e12, aria_A e11, aria_A e10, e9, aria_A e8, aria_A e7, aria_A e6, aria_A e5, aria_A e4, aria_A e3, aria_A e2, e1] := by
  simp [dk_swap_loop]

theorem derive16_eq (e0 e1 e2 e3 e4 e5 e6 e7 e8 e9 e10 e11 e12 e13 e14 e15 e16 e17 : aria_u128_t) :
    derive_dk 16 [e0, e1, e2, e3, e4, e5, e6, e7, e8, e9, e10, e11, e12, e13, e14, e15, e16, e17] = [e10, e17, aria_A e16, aria_A e15, aria_A e14, aria_A e13, aria_A e12, aria_A e11, aria_A e10, aria_A e9, aria_A e8, aria_A e7, aria_A e6, aria_A e5, aria_A e4, aria_A e3, aria_A e2, e1] := by
  simp only [derive_dk]
  simp
  rw [dstep16_1 e0 e1 e2 e3 e4 e5 e6 e7 e8 e9 e10 e11 e12 e13 e14 e15 e16 e17, dstep16_2 e0 e1 e2 e3 e4 e5 e6 e7 e8 e9 e10 e11 e12 e13 e14 e15 e16 e17, dstep16_3 e0 e1 e2 e3 e4 e5 e6 e7 e8 e9 e10 e11 e12 e13 e14 e15 e16 e17, dstep16_4 e0 e1 e2 e3 e4 e5 e6 e7 e8 e9 e10 e11 e12 e13 e14 e15 e16 e17, dstep16_5 e0 e1 e2 e3 e4 e5 e6 e7 e8 e9 e10 e11 e12 e13 e14 e15 e16 e17, dstep16_6 e0 e1 e2 e3 e4 e5 e6 e7 e8 e9 e10 e11 e12 e13 e14 e15 e16 e17, dstep16_7 e0 e1 e2 e3 e4 e5 e6 e7 e8 e9 e10 e11 e12 e13 e14 e15 e16 e17]
  rw [dk_swap_loop_stop]
  simp


theorem crypt12_list (k0 k1 k2 k3 k4 k5 k6 k7 k8 k9 k10 k11 k12 k13 k14 k15 k16 k17 P : aria_u128_t) :
    aria_crypt 12 [k0, k1, k2, k3, k4, k5, k6, k7, k8, k9, k10, k11, k12, k13, k14, k15, k16, k17] P =
      xor (aria_SL2 (xor (aria_FO (aria_FE (aria_FO (aria_FE (aria_FO (aria_FE (aria_FO (aria_FE (aria_FO (aria_FE (aria_FO P (k1)) (k2)) (k3)) (k4)) (k5)) (k6)) (k7)) (k8)) (k9)) (k10)) (k11)) k12)) k13 := rfl

theorem crypt14_list (k0 k1 k2 k3 k4 k5 k6 k7 k8 k9 k10 k11 k12 k13 k14 k15 k16 k17 P : aria_u128_t) :
    aria_crypt 14 [k0, k1, k2, k3, k4, k5, k6, k7, k8, k9, k10, k11, k12, k13, k14, k15, k16, k17] P =
      xor (aria_SL2 (xor (aria_FO (aria_FE (aria_FO (aria_FE (aria_FO (aria_FE (aria_FO (aria_FE (aria_FO (aria_FE (aria_FO (aria_FE (aria_FO P (k1)) (k2)) (k3)) (k4)) (k5)) (k6)) (k7)) (k8)) (k9)) (k10)) (k11)) (k12)) (k13)) k14)) k15 := rfl

theorem crypt16_list (k0 k1 k2 k3 k4 k5 k6 k7 k8 k9 k10 k11 k12 k13 k14 k15 k16 k17 P : aria_u128_t) :
    aria_crypt 16 [k0, k1, k2, k3, k4, k5, k6, k7, k8, k9, k10, k11, k12, k13, k14, k15, k16, k17] P =
      xor (aria_SL2 (xor (aria_FO (aria_FE (aria_FO (aria_FE (aria_FO (aria_FE (aria_FO (aria_FE (aria_FO (aria_FE (aria_FO (aria_FE (aria_FO (aria_FE (aria_FO P (k1)) (k2)) (k3)) (k4)) (k5)) (k6)) (k7)) (k8)) (k9)) (k10)) (k11)) (k12)) (k13)) (k14)) (k15)) k16)) k17 := rfl

theorem crypt12_inv (e0 e1 e2 e3 e4 e5 e6 e7 e8 e9 e10 e11 e12 e13 e14 e15 e16 e17 P : aria_u128_t) :
    aria_crypt 12 (derive_dk 12 [e0, e1, e2, e3, e4, e5, e6, e7, e8, e9, e10, e11, e12, e13, e14, e15, e16, e17])
      (aria_crypt 12 [e0, e1, e2, e3, e4, e5, e6, e7, e8, e9, e10, e11, e12, e13, e14, e15, e16, e17] P) = P := by
  rw [derive12_eq, crypt12_list, crypt12_list]
  simp only [aria_FO, aria_FE, xor_A, xor_cancel, A_A, SL2_SL1, SL1_SL2]

theorem crypt14_inv (e0 e1 e2 e3 e4 e5 e6 e7 e8 e9 e10 e11 e12 e13 e14 e15 e16 e17 P : aria_u128_t) :
    aria_crypt 14 (derive_dk 14 [e0, e1, e2, e3, e4, e5, e6, e7, e8, e9, e10, e11, e12, e13, e14, e15, e16, e17])
      (aria_crypt 14 [e0, e1, e2, e3, e4, e5, e6, e7, e8, e9, e10, e11, e12, e13, e14, e15, e16, e17] P) = P := by
  rw [derive14_eq, crypt14_list, crypt14_list]
  simp only [aria_FO, aria_FE, xor_A, xor_cancel, A_A, SL2_SL1, SL1_SL2]

theorem crypt16_inv (e0 e1 e2 e3 e4 e5 e6 e7 e8 e9 e10 e11 e12 e13 e14 e15 e16 e17 P : aria_u128_t) :
    aria_crypt 16 (derive_dk 16 [e0, e1, e2, e3, e4, e5, e6, e7, e8, e9, e10, e11, e12, e13, e14, e15, e16, e17])
      (aria_crypt 16 [e0, e1, e2, e3, e4, e5, e6, e7, e8, e9, e10, e11, e12, e13, e14, e15, e16, e17] P) = P := by
  rw [derive16_eq, crypt16_list, crypt16_list]
  simp only [aria_FO, aria_FE, xor_A, xor_cancel, A_A, SL2_SL1, SL1_SL2]


/- Definitions transcribed from the specification text, used by the
   refinement claims and compared against the implementation above. -/

/-- The odd round function as the spec states it: OddRound(D, RK) =
Diffusion(SubstitutionType1(D XOR RK)). -/
def spec_FO (D RK : aria_u128_t) : aria_u128_t := aria_A (aria_SL1 (xor D RK))

/-- The even round function as the spec states it: EvenRound(D, RK) =
Diffusion(SubstitutionType2(D XOR RK)). -/
def spec_FE (D RK : aria_u128_t) : aria_u128_t := aria_A (aria_SL2 (xor D RK))

/-- The 12-round composition stated by the spec: FO with key 1, alternating
FE/FO with keys 2 .. 11, then type 2 substitution, xor with key 12 and xor
with key 13; the final round has no diffusion. -/
def spec_crypt_12 (ek : List aria_u128_t) (input : aria_u128_t) : aria_u128_t :=
  let p1 := spec_FO input (ek.getD 1 zero128)
  let p2 := spec_FE p1 (ek.getD 2 zero128)
  let p3 := spec_FO p2 (ek.getD 3 zero128)
  let p4 := spec_FE p3 (ek.getD 4 zero128)
  let p5 := spec_FO p4 (ek.getD 5 zero128)
  let p6 := spec_FE p5 (ek.getD 6 zero128)
  let p7 := spec_FO p6 (ek.getD 7 zero128)
  let p8 := spec_FE p7 (ek.getD 8 zero128)
  let p9 := spec_FO p8 (ek.getD 9 zero128)
  let p10 := spec_FE p9 (ek.getD 10 zero128)
  let p11 := spec_FO p10 (ek.getD 11 zero128)
  xor (aria_SL2 (xor p11 (ek.getD 12 zero128))) (ek.getD 13 zero128)

/-- The 14-round composition stated by the spec: FO with key 1, alternating
FE/FO with keys 2 .. 13, then type 2 substitution, xor with key 14 and xor
with key 15; the final round has no diffusion. -/
def spec_crypt_14 (ek : List aria_u128_t) (input : aria_u128_t) : aria_u128_t :=
  let p1 := spec_FO input (ek.getD 1 zero128)
  let p2 := spec_FE p1 (ek.getD 2 zero128)
  let p3 := spec_FO p2 (ek.getD 3 zero128)
  let p4 := spec_FE p3 (ek.getD 4 zero128)
  let p5 := spec_FO p4 (ek.getD 5 zero128)
  let p6 := spec_FE p5 (ek.getD 6 zero128)
  let p7 := spec_FO p6 (ek.getD 7 zero128)
  let p8 := spec_FE p7 (ek.getD 8 zero128)
  let p9 := spec_FO p8 (ek.getD 9 zero128)
  let p10 := spec_FE p9 (ek.getD 10 zero128)
  let p11 := spec_FO p10 (ek.getD 11 zero128)
  let p12 := spec_FE p11 (ek.getD 12 zero128)
  let p13 := spec_FO p12 (ek.getD 13 zero128)
  xor (aria_SL2 (xor p13 (ek.getD 14 zero128))) (ek.getD 15 zero128)

/-- The 16-round composition stated by the spec: FO with key 1, alternating
FE/FO with keys 2 .. 15, then type 2 substitution, xor with key 16 and xor
with key 17; the final round has no diffusion. -/
def spec_crypt_16 (ek : List aria_u128_t) (input : aria_u128_t) : aria_u128_t :=
  let p1 := spec_FO input (ek.getD 1 zero128)
  let p2 := spec_FE p1 (ek.getD 2 zero128)
  let p3 := spec_FO p2 (ek.getD 3 zero128)
  let p4 := spec_FE p3 (ek.getD 4 zero128)
  let p5 := spec_FO p4 (ek.getD 5 zero128)
  let p6 := spec_FE p5 (ek.getD 6 zero128)
  let p7 := spec_FO p6 (ek.getD 7 zero128)
  let p8 := spec_FE p7 (ek.getD 8 zero128)
  let p9 := spec_FO p8 (ek.getD 9 zero128)
  let p10 := spec_FE p9 (ek.getD 10 zero128)
  let p11 := spec_FO p10 (ek.getD 11 zero128)
  let p12 := spec_FE p11 (ek.getD 12 zero128)
  let p13 := spec_FO p12 (ek.getD 13 zero128)
  let p14 := spec_FE p13 (ek.getD 14 zero128)
  let p15 := spec_FO p14 (ek.getD 15 zero128)
  xor (aria_SL2 (xor p15 (ek.getD 16 zero128))) (ek.getD 17 zero128)

/-- The generalized Feistel value W0 of the spec key schedule. -/
def spec_W0 (KL : aria_u128_t) : aria_u128_t := KL

/-- The generalized Feistel value W1 of the spec key schedule:
OddRound(W0, CK1) XOR KR. -/
def spec_W1 (KL KR CK1 : aria_u128_t) : aria_u128_t := xor (spec_FO (spec_W0 KL) CK1) KR

/-- The generalized Feistel value W2 of the spec key schedule:
EvenRound(W1, CK2) XOR W0. -/
def spec_W2 (KL KR CK1 CK2 : aria_u128_t) : aria_u128_t :=
  xor (spec_FE (spec_W1 KL KR CK1) CK2) (spec_W0 KL)

/-- The generalized Feistel value W3 of the spec key schedule:
OddRound(W2, CK3) XOR W1. -/
def spec_W3 (KL KR CK1 CK2 CK3 : aria_u128_t) : aria_u128_t :=
  xor (spec_FO (spec_W2 KL KR CK1 CK2) CK3) (spec_W1 KL KR CK1)

/-- The 17 fixed rotate-and-xor round-key formulas stated by the spec:
right rotations by 19 then 31 for candidates 1 .. 8, left rotations by 61,
31, 19 for candidates 9 .. 17. -/
def spec_ek_formula (W0 W1 W2 W3 : aria_u128_t) : Nat → aria_u128_t
  | 1 => xor W0 (ror W1 19)
  | 2 => xor W1 (ror W2 19)
  | 3 => xor W2 (ror W3 19)
  | 4 => xor (ror W0 19) W3
  | 5 => xor W0 (ror W1 31)
  | 6 => xor W1 (ror W2 31)
  | 7 => xor W2 (ror W3 31)
  | 8 => xor (ror W0 31) W3
  | 9 => xor W0 (rol W1 61)
  | 10 => xor W1 (rol W2 61)
  | 11 => xor W2 (rol W3 61)
  | 12 => xor (rol W0 61) W3
  | 13 => xor W0 (rol W1 31)
  | 14 => xor W1 (rol W2 31)
  | 15 => xor W2 (rol W3 31)
  | 16 => xor (rol W0 31) W3
  | 17 => xor W0 (rol W1 19)
  | _ => zero128

/-- The encryption round-key array built by aria_encrypt_128 of aria.c. -/
def ek_array_128 (Key : aria_u128_t) : List aria_u128_t :=
  let W0 := Key
  let W1 := aria_FO W0 C1
  let W2 := xor (aria_FE W1 C2) W0
  let W3 := xor (aria_FO W2 C3) W1
  compute_ek W0 W1 W2 W3

/-- The encryption round-key array built by aria_encrypt_192 of aria.c. -/
def ek_array_192 (KeyLeft KeyRight : aria_u128_t) : List aria_u128_t :=
  let W0 := KeyLeft
  let W1 := xor (aria_FO W0 C2) KeyRight
  let W2 := xor (aria_FE W1 C3) W0
  let W3 := xor (aria_FO W2 C1) W1
  compute_ek W0 W1 W2 W3

/-- The encryption round-key array built by aria_encrypt_256 of aria.c. -/
def ek_array_256 (KeyLeft KeyRight : aria_u128_t) : List aria_u128_t :=
  let W0 := KeyLeft
  let W1 := xor (aria_FO W0 C3) KeyRight
  let W2 := xor (aria_FE W1 C1) W0
  let W3 := xor (aria_FO W2 C2) W1
  compute_ek W0 W1 W2 W3

/- The public interface types of aria.h. -/

/-- aria_cryto_mode_t from aria.h (the spelling follows the header). -/
inductive aria_cryto_mode_t where
  | ENCRYPT
  | DECRYPT

/-- aria_error_code_t from aria.h. -/
inductive aria_error_code_t where
  | NO_ERROR
  | ARG_BAD
  | KEY_SIZE_BAD
  | CRYPTO_MODE_BAD

/-- aria_key_schedule_t from aria.h: round-key array, mode and round count. -/
structure aria_key_schedule_t where
  ek : List aria_u128_t
  mode : aria_cryto_mode_t
  rounds : Nat

/-- Modelled from the spec: the body of aria_init_key_schedule is declared in
aria.h but not present in the sources; per spec sections 6 and 7 it validates
that the key size is exactly 128, 192 or 256 bits, failing with the key-size
error as an explicit result value, and otherwise stores the schedule built
exactly as the aria_encrypt_NNN / aria_decrypt_NNN functions of aria.c build
theirs, with 12, 14 or 16 rounds. -/
def aria_init_key_schedule (KeyLeft KeyRight : aria_u128_t) (mode : aria_cryto_mode_t)
    (key_size_in_bits : Nat) : Except aria_error_code_t aria_key_schedule_t :=
  if key_size_in_bits = 128 then
    let ek := ek_array_128 KeyLeft
    .ok ⟨(match mode with | .ENCRYPT => ek | .DECRYPT => derive_dk 12 ek), mode, 12⟩
  else if key_size_in_bits = 192 then
    let ek := ek_array_192 KeyLeft KeyRight
    .ok ⟨(match mode with | .ENCRYPT => ek | .DECRYPT => derive_dk 14 ek), mode, 14⟩
  else if key_size_in_bits = 256 then
    let ek := ek_array_256 KeyLeft KeyRight
    .ok ⟨(match mode with | .ENCRYPT => ek | .DECRYPT => derive_dk 16 ek), mode, 16⟩
  else
    .error .KEY_SIZE_BAD

/-- Modelled from the spec: the schedule-based block transform declared in
aria.h (aria_crypt taking a key schedule); it runs the crypt engine with the
stored round count and round-key array and is a total function. -/
def aria_crypt_with_schedule (ks : aria_key_schedule_t) (text : aria_u128_t) : aria_u128_t :=
  aria_crypt ks.rounds ks.ek text

/- The claims. -/

/-- C1: for every valid master key of 128, 192 or 256 bits and every 128-bit
block b, decrypting the encryption of b under the same key yields b:
aria_decrypt_NNN(key, aria_encrypt_NNN(key, b)) = b for NNN in 128, 192, 256. -/
theorem round_trip_all_key_sizes :
    (∀ Key P : aria_u128_t, aria_decrypt_128 Key (aria_encrypt_128 Key P) = P)
  ∧ (∀ KL KR P : aria_u128_t, aria_decrypt_192 KL KR (aria_encrypt_192 KL KR P) = P)
  ∧ (∀ KL KR P : aria_u128_t, aria_decrypt_256 KL KR (aria_encrypt_256 KL KR P) = P) := by
  refine ⟨fun Key P => ?_, fun KL KR P => ?_, fun KL KR P => ?_⟩
  · exact crypt12_inv _ _ _ _ _ _ _ _ _ _ _ _ _ _ _ _ _ _ P
  · exact crypt14_inv _ _ _ _ _ _ _ _ _ _ _ _ _ _ _ _ _ _ P
  · exact crypt16_inv _ _ _ _ _ _ _ _ _ _ _ _ _ _ _ _ _ _ P

/-- C2: encryption reproduces the three published known-answer vectors of
RFC 5794 exactly.  Each 128-bit value packs its 16 bytes big-endian into the
two 64-bit words (byte 0 is the most significant byte of the left word), so
key 000102030405060708090a0b0c0d0e0f is the pair (0x0001020304050607,
0x08090a0b0c0d0e0f), and the 192-bit key extension 1011121314151617 is
zero-padded on the right. -/
theorem known_answer_vectors :
    aria_encrypt_128 ⟨0x0001020304050607, 0x08090a0b0c0d0e0f, by norm_num, by norm_num⟩
      ⟨0x0011223344556677, 0x8899aabbccddeeff, by norm_num, by norm_num⟩
      = ⟨0xd718fbd6ab644c73, 0x9da95f3be6451778, by norm_num, by norm_num⟩
  ∧ aria_encrypt_192 ⟨0x0001020304050607, 0x08090a0b0c0d0e0f, by norm_num, by norm_num⟩
      ⟨0x1011121314151617, 0, by norm_num, by norm_num⟩
      ⟨0x0011223344556677, 0x8899aabbccddeeff, by norm_num, by norm_num⟩
      = ⟨0x26449c1805dbe7aa, 0x25a468ce263a9e79, by norm_num, by norm_num⟩
  ∧ aria_encrypt_256 ⟨0x0001020304050607, 0x08090a0b0c0d0e0f, by norm_num, by norm_num⟩
      ⟨0x1011121314151617, 0x18191a1b1c1d1e1f, by norm_num, by norm_num⟩
      ⟨0x0011223344556677, 0x8899aabbccddeeff, by norm_num, by norm_num⟩
      = ⟨0xf92bd7c79fb72e2f, 0x2b8f80c1972d24fc, by norm_num, by norm_num⟩ := by
  refine ⟨?_, ?_, ?_⟩ <;> rfl

/-- C3: for each even round count 12, 14, 16, any round-key array and any
input block, the crypt engine computes exactly the composition stated by the
spec: FO with key 1, alternating FE/FO through keys 2 .. rounds-1 in order,
then XOR(SL2(XOR(previous, key rounds)), key rounds+1), with no diffusion in
the final round. -/
theorem crypt_engine_round_composition :
    (∀ (ek : List aria_u128_t) (b : aria_u128_t), aria_crypt 12 ek b = spec_crypt_12 ek b)
  ∧ (∀ (ek : List aria_u128_t) (b : aria_u128_t), aria_crypt 14 ek b = spec_crypt_14 ek b)
  ∧ (∀ (ek : List aria_u128_t) (b : aria_u128_t), aria_crypt 16 ek b = spec_crypt_16 ek b) := by
  refine ⟨fun ek b => ?_, fun ek b => ?_, fun ek b => ?_⟩ <;> rfl

/-- C4: for every master key, the encryption round-key array equals the first
rounds+1 entries (1-indexed) of the 17 candidates obtained from the spec
Feistel values W0 .. W3 with constants (C1,C2,C3), (C2,C3,C1), (C3,C1,C2) for
key sizes 128, 192, 256 via the 17 fixed rotate-and-xor formulas, where
rounds is 12, 14 or 16; for a 128-bit key KR is zero. -/
theorem key_schedule_candidates :
    (∀ (Key P : aria_u128_t), aria_encrypt_128 Key P = aria_crypt 12 (ek_array_128 Key) P)
  ∧ (∀ (Key : aria_u128_t) (i : Fin 13),
      (ek_array_128 Key).getD (i.1 + 1) zero128 =
        spec_ek_formula (spec_W0 Key) (spec_W1 Key zero128 C1)
          (spec_W2 Key zero128 C1 C2) (spec_W3 Key zero128 C1 C2 C3) (i.1 + 1))
  ∧   (∀ (KL KR P : aria_u128_t), aria_encrypt_192 KL KR P = aria_crypt 14 (ek_array_192 KL KR) P)
  ∧ (∀ (KL KR : aria_u128_t) (i : Fin 15),
      (ek_array_192 KL KR).getD (i.1 + 1) zero128 =
        spec_ek_formula (spec_W0 KL) (spec_W1 KL KR C2)
          (spec_W2 KL KR C2 C3) (spec_W3 KL KR C2 C3 C1) (i.1 + 1))
  ∧   (∀ (KL KR P : aria_u128_t), aria_encrypt_256 KL KR P = aria_crypt 16 (ek_array_256 KL KR) P)
  ∧ (∀ (KL KR : aria_u128_t) (i : Fin 17),
      (ek_array_256 KL KR).getD (i.1 + 1) zero128 =
        spec_ek_formula (spec_W0 KL) (spec_W1 KL KR C3)
          (spec_W2 KL KR C3 C1) (spec_W3 KL KR C3 C1 C2) (i.1 + 1)) := by
  refine ⟨fun Key P => rfl, fun Key i => ?_, fun KL KR P => rfl, fun KL KR i => ?_,
    fun KL KR P => rfl, fun KL KR i => ?_⟩
  · fin_cases i <;>
      simp [ek_array_128, compute_ek, spec_ek_formula, spec_W0, spec_W1, spec_W2, spec_W3,
        spec_FO, spec_FE, aria_FO, aria_FE, xor_zero128]
  · fin_cases i <;> rfl
  · fin_cases i <;> rfl

/-- C5: for every encryption round-key array (held in the 18-slot buffer, as
in aria.c), the derived decryption array is a new array of the same shape
with dk 1 = ek rounds+1, dk rounds+1 = ek 1, and dk i = A(ek (rounds+2-i))
for 2 ≤ i ≤ rounds, for each round count 12, 14, 16. -/
theorem decrypt_key_derivation (e0 e1 e2 e3 e4 e5 e6 e7 e8 e9 e10 e11 e12 e13 e14 e15 e16 e17 : aria_u128_t) :
    ((derive_dk 12 [e0, e1, e2, e3, e4, e5, e6, e7, e8, e9, e10, e11, e12, e13, e14, e15, e16, e17]).length = 18
    ∧ (derive_dk 12 [e0, e1, e2, e3, e4, e5, e6, e7, e8, e9, e10, e11, e12, e13, e14, e15, e16, e17]).getD 1 zero128 = e13
    ∧ (derive_dk 12 [e0, e1, e2, e3, e4, e5, e6, e7, e8, e9, e10, e11, e12, e13, e14, e15, e16, e17]).getD 2 zero128 = aria_A e12
    ∧ (derive_dk 12 [e0, e1, e2, e3, e4, e5, e6, e7, e8, e9, e10, e11, e12, e13, e14, e15, e16, e17]).getD 3 zero128 = aria_A e11
    ∧ (derive_dk 12 [e0, e1, e2, e3, e4, e5, e6, e7, e8, e9, e10, e11, e12, e13, e14, e15, e16, e17]).getD 4 zero128 = aria_A e10
    ∧ (derive_dk 12 [e0, e1, e2, e3, e4, e5, e6, e7, e8, e9, e10, e11, e12, e13, e14, e15, e16, e17]).getD 5 zero128 = aria_A e9
    ∧ (derive_dk 12 [e0, e1, e2, e3, e4, e5, e6, e7, e8, e9, e10, e11, e12, e13, e14, e15, e16, e17]).getD 6 zero128 = aria_A e8
    ∧ (derive_dk 12 [e0, e1, e2, e3, e4, e5, e6, e7, e8, e9, e10, e11, e12, e13, e14, e15, e16, e17]).getD 7 zero128 = aria_A e7
    ∧ (derive_dk 12 [e0, e1, e2, e3, e4, e5, e6, e7, e8, e9, e10, e11, e12, e13, e14, e15, e16, e17]).getD 8 zero128 = aria_A e6
    ∧ (derive_dk 12 [e0, e1, e2, e3, e4, e5, e6, e7, e8, e9, e10, e11, e12, e13, e14, e15, e16, e17]).getD 9 zero128 = aria_A e5
    ∧ (derive_dk 12 [e0, e1, e2, e3, e4, e5, e6, e7, e8, e9, e10, e11, e12, e13, e14, e15, e16, e17]).getD 10 zero128 = aria_A e4
    ∧ (derive_dk 12 [e0, e1, e2, e3, e4, e5, e6, e7, e8, e9, e10, e11, e12, e13, e14, e15, e16, e17]).getD 11 zero128 = aria_A e3
    ∧ (derive_dk 12 [e0, e1, e2, e3, e4, e5, e6, e7, e8, e9, e10, e11, e12, e13, e14, e15, e16, e17]).getD 12 zero128 = aria_A e2
    ∧ (derive_dk 12 [e0, e1, e2, e3, e4, e5, e6, e7, e8, e9, e10, e11, e12, e13, e14, e15, e16, e17]).getD 13 zero128 = e1)
  ∧ ((derive_dk 14 [e0, e1, e2, e3, e4, e5, e6, e7, e8, e9, e10, e11, e12, e13, e14, e15, e16, e17]).length = 18
    ∧ (derive_dk 14 [e0, e1, e2, e3, e4, e5, e6, e7, e8, e9, e10, e11, e12, e13, e14, e15, e16, e17]).getD 1 zero128 = e15
    ∧ (derive_dk 14 [e0, e1, e2, e3, e4, e5, e6, e7, e8, e9, e10, e11, e12, e13, e14, e15, e16, e17]).getD 2 zero128 = aria_A e14
    ∧ (derive_dk 14 [e0, e1, e2, e3, e4, e5, e6, e7, e8, e9, e10, e11, e12, e13, e14, e15, e16, e17]).getD 3 zero128 = aria_A e13
    ∧ (derive_dk 14 [e0, e1, e2, e3, e4, e5, e6, e7, e8, e9, e10, e11, e12, e13, e14, e15, e16, e17]).getD 4 zero128 = aria_A e12
    ∧ (derive_dk 14 [e0, e1, e2, e3, e4, e5, e6, e7, e8, e9, e10, e11, e12, e13, e14, e15, e16, e17]).getD 5 zero128 = aria_A e11
    ∧ (derive_dk 14 [e0, e1, e2, e3, e4, e5, e6, e7, e8, e9, e10, e11, e12, e13, e14, e15, e16, e17]).getD 6 zero128 = aria_A e10
    ∧ (derive_dk 14 [e0, e1, e2, e3, e4, e5, e6, e7, e8, e9, e10, e11, e12, e13, e14, e15, e16, e17]).getD 7 zero128 = aria_A e9
    ∧ (derive_dk 14 [e0, e1, e2, e3, e4, e5, e6, e7, e8, e9, e10, e11, e12, e13, e14, e15, e16, e17]).getD 8 zero128 = aria_A e8
    ∧ (derive_dk 14 [e0, e1, e2, e3, e4, e5, e6, e7, e8, e9, e10, e11, e12, e13, e14, e15, e16, e17]).getD 9 zero128 = aria_A e7
    ∧ (derive_dk 14 [e0, e1, e2, e3, e4, e5, e6, e7, e8, e9, e10, e11, e12, e13, e14, e15, e16, e17]).getD 10 zero128 = aria_A e6
    ∧ (derive_dk 14 [e0, e1, e2, e3, e4, e5, e6, e7, e8, e9, e10, e11, e12, e13, e14, e15, e16, e17]).getD 11 zero128 = aria_A e5
    ∧ (derive_dk 14 [e0, e1, e2, e3, e4, e5, e6, e7, e8, e9, e10, e11, e12, e13, e14, e15, e16, e17]).getD 12 zero128 = aria_A e4
    ∧ (derive_dk 14 [e0, e1, e2, e3, e4, e5, e6, e7, e8, e9, e10, e11, e12, e13, e14, e15, e16, e17]).getD 13 zero128 = aria_A e3
    ∧ (derive_dk 14 [e0, e1, e2, e3, e4, e5, e6, e7, e8, e9, e10, e11, e12, e13, e14, e15, e16, e17]).getD 14 zero128 = aria_A e2
    ∧ (derive_dk 14 [e0, e1, e2, e3, e4, e5, e6, e7, e8, e9, e10, e11, e12, e13, e14, e15, e16, e17]).getD 15 zero128 = e1)
  ∧ ((derive_dk 16 [e0, e1, e2, e3, e4, e5, e6, e7, e8, e9, e10, e11, e12, e13, e14, e15, e16, e17]).length = 18
    ∧ (derive_dk 16 [e0, e1, e2, e3, e4, e5, e6, e7, e8, e9, e10, e11, e12, e13, e14, e15, e16, e17]).getD 1 zero128 = e17
    ∧ (derive_dk 16 [e0, e1, e2, e3, e4, e5, e6, e7, e8, e9, e10, e11, e12, e13, e14, e15, e16, e17]).getD 2 zero128 = aria_A e16
    ∧ (derive_dk 16 [e0, e1, e2, e3, e4, e5, e6, e7, e8, e9, e10, e11, e12, e13, e14, e15, e16, e17]).getD 3 zero128 = aria_A e15
    ∧ (derive_dk 16 [e0, e1, e2, e3, e4, e5, e6, e7, e8, e9, e10, e11, e12, e13, e14, e15, e16, e17]).getD 4 zero128 = aria_A e14
    ∧ (derive_dk 16 [e0, e1, e2, e3, e4, e5, e6, e7, e8, e9, e10, e11, e12, e13, e14, e15, e16, e17]).getD 5 zero128 = aria_A e13
    ∧ (derive_dk 16 [e0, e1, e2, e3, e4, e5, e6, e7, e8, e9, e10, e11, e12, e13, e14, e15, e16, e17]).getD 6 zero128 = aria_A e12
    ∧ (derive_dk 16 [e0, e1, e2, e3, e4, e5, e6, e7, e8, e9, e10, e11, e12, e13, e14, e15, e16, e17]).getD 7 zero128 = aria_A e11
    ∧ (derive_dk 16 [e0, e1, e2, e3, e4, e5, e6, e7, e8, e9, e10, e11, e12, e13, e14, e15, e16, e17]).getD 8 zero128 = aria_A e10
    ∧ (derive_dk 16 [e0, e1, e2, e3, e4, e5, e6, e7, e8, e9, e10, e11, e12, e13, e14, e15, e16, e17]).getD 9 zero128 = aria_A e9
    ∧ (derive_dk 16 [e0, e1, e2, e3, e4, e5, e6, e7, e8, e9, e10, e11, e12, e13, e14, e15, e16, e17]).getD 10 zero128 = aria_A e8
    ∧ (derive_dk 16 [e0, e1, e2, e3, e4, e5, e6, e7, e8, e9, e10, e11, e12, e13, e14, e15, e16, e17]).getD 11 zero128 = aria_A e7
    ∧ (derive_dk 16 [e0, e1, e2, e3, e4, e5, e6, e7, e8, e9, e10, e11, e12, e13, e14, e15, e16, e17]).getD 12 zero128 = aria_A e6
    ∧ (derive_dk 16 [e0, e1, e2, e3, e4, e5, e6, e7, e8, e9, e10, e11, e12, e13, e14, e15, e16, e17]).getD 13 zero128 = aria_A e5
    ∧ (derive_dk 16 [e0, e1, e2, e3, e4, e5, e6, e7, e8, e9, e10, e11, e12, e13, e14, e15, e16, e17]).getD 14 zero128 = aria_A e4
    ∧ (derive_dk 16 [e0, e1, e2, e3, e4, e5, e6, e7, e8, e9, e10, e11, e12, e13, e14, e15, e16, e17]).getD 15 zero128 = aria_A e3
    ∧ (derive_dk 16 [e0, e1, e2, e3, e4, e5, e6, e7, e8, e9, e10, e11, e12, e13, e14, e15, e16, e17]).getD 16 zero128 = aria_A e2
    ∧ (derive_dk 16 [e0, e1, e2, e3, e4, e5, e6, e7, e8, e9, e10, e11, e12, e13, e14, e15, e16, e17]).getD 17 zero128 = e1) := by
  refine ⟨?_, ?_, ?_⟩
  · rw [derive12_eq]
    exact ⟨rfl, rfl, rfl, rfl, rfl, rfl, rfl, rfl, rfl, rfl, rfl, rfl, rfl, rfl⟩
  · rw [derive14_eq]
    exact ⟨rfl, rfl, rfl, rfl, rfl, rfl, rfl, rfl, rfl, rfl, rfl, rfl, rfl, rfl, rfl, rfl⟩
  · rw [derive16_eq]
    exact ⟨rfl, rfl, rfl, rfl, rfl, rfl, rfl, rfl, rfl, rfl, rfl, rfl, rfl, rfl, rfl, rfl, rfl, rfl⟩

/-- C6: the diffusion layer A is an involution: A(A(x)) = x for every
128-bit block x. -/
theorem diffusion_involution (x : aria_u128_t) : aria_A (aria_A x) = x := A_A x

/-- C7: the substitution table pairs are mutual inverses: for every byte b,
SB3[SB1[b]] = b and SB4[SB2[b]] = b. -/
theorem sbox_mutual_inverses (b : Fin 256) :
    SB3.getD (SB1.getD b.1 0) 0 = b.1 ∧ SB4.getD (SB2.getD b.1 0) 0 = b.1 :=
  ⟨SB3_SB1 b.1 b.2, SB4_SB2 b.1 b.2⟩

/-- C8: substitution layer type 1 maps the byte at each position through the
cyclic table pattern (SB1, SB2, SB3, SB4) and type 2 through (SB3, SB4, SB1,
SB2); each output byte at position i depends only on the input byte at
position i. -/
theorem substitution_layer_pattern (x : aria_u128_t) :
    x0 (aria_SL1 x) = SB1.getD (x0 x) 0
  ∧ x1 (aria_SL1 x) = SB2.getD (x1 x) 0
  ∧ x2 (aria_SL1 x) = SB3.getD (x2 x) 0
  ∧ x3 (aria_SL1 x) = SB4.getD (x3 x) 0
  ∧ x4 (aria_SL1 x) = SB1.getD (x4 x) 0
  ∧ x5 (aria_SL1 x) = SB2.getD (x5 x) 0
  ∧ x6 (aria_SL1 x) = SB3.getD (x6 x) 0
  ∧ x7 (aria_SL1 x) = SB4.getD (x7 x) 0
  ∧ x8 (aria_SL1 x) = SB1.getD (x8 x) 0
  ∧ x9 (aria_SL1 x) = SB2.getD (x9 x) 0
  ∧ x10 (aria_SL1 x) = SB3.getD (x10 x) 0
  ∧ x11 (aria_SL1 x) = SB4.getD (x11 x) 0
  ∧ x12 (aria_SL1 x) = SB1.getD (x12 x) 0
  ∧ x13 (aria_SL1 x) = SB2.getD (x13 x) 0
  ∧ x14 (aria_SL1 x) = SB3.getD (x14 x) 0
  ∧ x15 (aria_SL1 x) = SB4.getD (x15 x) 0
  ∧ x0 (aria_SL2 x) = SB3.getD (x0 x) 0
  ∧ x1 (aria_SL2 x) = SB4.getD (x1 x) 0
  ∧ x2 (aria_SL2 x) = SB1.getD (x2 x) 0
  ∧ x3 (aria_SL2 x) = SB2.getD (x3 x) 0
  ∧ x4 (aria_SL2 x) = SB3.getD (x4 x) 0
  ∧ x5 (aria_SL2 x) = SB4.getD (x5 x) 0
  ∧ x6 (aria_SL2 x) = SB1.getD (x6 x) 0
  ∧ x7 (aria_SL2 x) = SB2.getD (x7 x) 0
  ∧ x8 (aria_SL2 x) = SB3.getD (x8 x) 0
  ∧ x9 (aria_SL2 x) = SB4.getD (x9 x) 0
  ∧ x10 (aria_SL2 x) = SB1.getD (x10 x) 0
  ∧ x11 (aria_SL2 x) = SB2.getD (x11 x) 0
  ∧ x12 (aria_SL2 x) = SB3.getD (x12 x) 0
  ∧ x13 (aria_SL2 x) = SB4.getD (x13 x) 0
  ∧ x14 (aria_SL2 x) = SB1.getD (x14 x) 0
  ∧ x15 (aria_SL2 x) = SB2.getD (x15 x) 0 :=
  ⟨x0_SL1 x, x1_SL1 x, x2_SL1 x, x3_SL1 x, x4_SL1 x, x5_SL1 x, x6_SL1 x, x7_SL1 x, x8_SL1 x, x9_SL1 x, x10_SL1 x, x11_SL1 x, x12_SL1 x, x13_SL1 x, x14_SL1 x, x15_SL1 x, x0_SL2 x, x1_SL2 x, x2_SL2 x, x3_SL2 x, x4_SL2 x, x5_SL2 x, x6_SL2 x, x7_SL2 x, x8_SL2 x, x9_SL2 x, x10_SL2 x, x11_SL2 x, x12_SL2 x, x13_SL2 x, x14_SL2 x, x15_SL2 x⟩

/-- C9: schedule construction with a key size other than exactly 128, 192 or
256 bits, in particular 0, 64 or 512, fails with the key-size error
(KEY_SIZE_BAD in aria.h) returned as an explicit result value; valid sizes
succeed, and the block transform on a built schedule is a total function. -/
theorem init_key_schedule_key_size :
    (∀ KL KR mode, aria_init_key_schedule KL KR mode 0 = .error .KEY_SIZE_BAD)
  ∧ (∀ KL KR mode, aria_init_key_schedule KL KR mode 64 = .error .KEY_SIZE_BAD)
  ∧ (∀ KL KR mode, aria_init_key_schedule KL KR mode 512 = .error .KEY_SIZE_BAD)
  ∧ (∀ KL KR mode sz, sz ≠ 128 → sz ≠ 192 → sz ≠ 256 →
      aria_init_key_schedule KL KR mode sz = .error .KEY_SIZE_BAD)
  ∧ (∀ KL KR mode, ∃ ks, aria_init_key_schedule KL KR mode 128 = .ok ks)
  ∧ (∀ KL KR mode, ∃ ks, aria_init_key_schedule KL KR mode 192 = .ok ks)
  ∧ (∀ KL KR mode, ∃ ks, aria_init_key_schedule KL KR mode 256 = .ok ks)
  ∧ (∀ ks text, ∃ y, aria_crypt_with_schedule ks text = y) := by
  refine ⟨fun KL KR mode => rfl, fun KL KR mode => rfl, fun KL KR mode => rfl,
    fun KL KR mode sz h1 h2 h3 => ?_, fun KL KR mode => ⟨_, rfl⟩, fun KL KR mode => ⟨_, rfl⟩,
    fun KL KR mode => ⟨_, rfl⟩, fun ks text => ⟨_, rfl⟩⟩
  simp [aria_init_key_schedule, h1, h2, h3]

/-- Witness for C9 at the concrete key size 96. -/
theorem init_key_schedule_key_size_witness :
    aria_init_key_schedule zero128 zero128 .ENCRYPT 96 = .error .KEY_SIZE_BAD :=
  init_key_schedule_key_size.2.2.2.1 zero128 zero128 .ENCRYPT 96
    (by decide) (by decide) (by decide)

/-- C10: the live optimized diffusion layer (with the shared four-byte
subexpressions t0 .. t3) computes exactly the same function as the direct
definition in which each output byte is the xor of its seven input bytes. -/
theorem diffusion_opt_eq_direct (x : aria_u128_t) : aria_A x = aria_A_direct x :=
  A_eq_A_direct x

end ARIA
